import Mathlib

/-!
Verification of the Task Automation Engine of the conviso CLI
(`src/conviso/commands/tasks.py`): recipe validation, the approval store,
the output-format parsers, the template renderer, the vulnerability-type
classifier and the action dispatcher.  Python values (JSON / YAML / dict
payloads) are modelled by the inductive type `Val`; Python dictionaries are
assoc lists with insert-or-update semantics; external collaborators
(`yaml.safe_load`, `hashlib.sha256`, the GraphQL transport) are parameters
of the embedded functions.  A Python exception escaping a function is
modelled by `Except`.
-/

namespace Conviso

/-- A Python value as used by the task engine: the result of `json.loads` /
`yaml.safe_load`, a rendered payload entry, or a context field.  `null`
models Python `None`. -/
inductive Val where
  | null
  | bool (b : Bool)
  | int (n : Int)
  | str (s : String)
  | list (xs : List Val)
  | dict (kvs : List (String × Val))
deriving Repr, Inhabited

/-- Python truthiness (`bool(v)`) for the values `Val` models. -/
def truthy : Val → Bool
  | .null => false
  | .bool b => b
  | .int n => n != 0
  | .str s => s != ""
  | .list xs => !xs.isEmpty
  | .dict kvs => !kvs.isEmpty

/-- Python `a or b`. -/
def pyOr (a b : Val) : Val := if truthy a then a else b

/-- Models the pervasive source check `v in (None, "")`. -/
def isBlank : Val → Bool
  | .null => true
  | .str s => s == ""
  | _ => false

/-- A Python dictionary with string keys, as an assoc list kept in insertion
order (first occurrence of a key is the binding, as in a Python dict that is
only ever updated through item assignment). -/
abbrev PyDict := List (String × Val)

/-- `d[k]` lookup returning `none` when the key is absent. -/
def dget? : PyDict → String → Option Val
  | [], _ => none
  | (k', v') :: rest, k => if k' = k then some v' else dget? rest k

/-- Python `d.get(k)`: the stored value, or `None` when absent. -/
def dget (d : PyDict) (k : String) : Val := (dget? d k).getD .null

/-- Python `d.get(k, default)`. -/
def dgetD (d : PyDict) (k : String) (default : Val) : Val := (dget? d k).getD default

/-- Python `k in d`. -/
def dmem (d : PyDict) (k : String) : Bool := (dget? d k).isSome

/-- Python `d[k] = v`: replaces the binding in place, else appends. -/
def dset (d : PyDict) (k : String) (v : Val) : PyDict :=
  match d with
  | [] => [(k, v)]
  | (k', v') :: rest => if k' == k then (k, v) :: rest else (k', v') :: dset rest k v

/-- Python `d.pop(k, None)`. -/
def dpop (d : PyDict) (k : String) : PyDict := d.filter (fun kv => kv.1 != k)

/-- `d.get(k)` on a value expected to be a dict (used only where the source
has already guarded the value with `or {}` / `isinstance`). -/
def vget (v : Val) (k : String) : Val :=
  match v with
  | .dict kvs => dget kvs k
  | _ => .null

/-- ASCII `str.lower()`. -/
def pyLower (s : String) : String := String.mk (s.data.map Char.toLower)

/-- ASCII `str.upper()`. -/
def pyUpper (s : String) : String := String.mk (s.data.map Char.toUpper)

/-- Python `str.isdigit()` (ASCII digits). -/
def pyIsDigit (s : String) : Bool := !s.data.isEmpty && s.data.all Char.isDigit

/-- Python `str.strip()` (ASCII whitespace). -/
def pyStrip (s : String) : String :=
  String.mk (((s.data.dropWhile Char.isWhitespace).reverse.dropWhile Char.isWhitespace).reverse)

/-- Python `str.lstrip()`. -/
def pyLStrip (s : String) : String := String.mk (s.data.dropWhile Char.isWhitespace)

/-- Python `s.startswith(pre)`. -/
def pyStartsWith (s pre : String) : Bool := pre.data.isPrefixOf s.data

/-- Split on a nonempty separator, left to right, non-overlapping.  The
`fuel` argument only makes the recursion structural; any fuel above the
list length is enough. -/
def splitOnCharsFuel (sep : List Char) : Nat → List Char → List Char → List (List Char)
  | _, [], acc => [acc.reverse]
  | 0, l, acc => [acc.reverse ++ l]
  | fuel + 1, c :: rest, acc =>
      if sep.isPrefixOf (c :: rest) then
        acc.reverse :: splitOnCharsFuel sep fuel ((c :: rest).drop sep.length) []
      else splitOnCharsFuel sep fuel rest (c :: acc)

/-- Python `s.split(sep)` for a nonempty separator (also the behaviour of
`str.splitlines` for inputs whose only line breaks are `\n`, via
`sep = "\n"`). -/
def pySplitOn (s sep : String) : List String :=
  if sep.data.isEmpty then [s]
  else (splitOnCharsFuel sep.data (s.data.length + 1) s.data []).map String.mk

def digitsToNat (l : List Char) : Nat := l.foldl (fun n c => n * 10 + (c.toNat - 48)) 0

/-- The numeric value of an all-digits string, else `none`. -/
def pyParseNat (s : String) : Option Nat :=
  if pyIsDigit s then some (digitsToNat s.data) else none

/-- Python `int(s)` on a string: optional sign and digits after stripping,
else a `ValueError` (`none`). -/
def pyParseInt (s : String) : Option Int :=
  match (pyStrip s).data with
  | '-' :: rest =>
      if !rest.isEmpty && rest.all Char.isDigit then some (-(digitsToNat rest : Int)) else none
  | '+' :: rest =>
      if !rest.isEmpty && rest.all Char.isDigit then some (digitsToNat rest : Int) else none
  | l => if !l.isEmpty && l.all Char.isDigit then some (digitsToNat l : Int) else none

def splitWsAux : List Char → List Char → List (List Char)
  | [], acc => [acc.reverse]
  | c :: rest, acc =>
      if c.isWhitespace then acc.reverse :: splitWsAux rest [] else splitWsAux rest (c :: acc)

/-- Python `s.split()`: whitespace runs, no empty parts. -/
def pySplitWs (s : String) : List String :=
  ((splitWsAux s.data []).filter (fun t => !t.isEmpty)).map String.mk

mutual
/-- Python `str(v)` for the values `Val` models. -/
def pyStr : Val → String
  | .null => "None"
  | .bool b => if b then "True" else "False"
  | .int n => toString n
  | .str s => s
  | .list xs => "[" ++ String.intercalate ", " (pyReprList xs) ++ "]"
  | .dict kvs => "\x7b" ++ String.intercalate ", " (pyReprKVs kvs) ++ "\x7d"

/-- Python `repr(v)` (strings without escape-worthy characters). -/
def pyRepr : Val → String
  | .null => "None"
  | .bool b => if b then "True" else "False"
  | .int n => toString n
  | .str s => "'" ++ s ++ "'"
  | .list xs => "[" ++ String.intercalate ", " (pyReprList xs) ++ "]"
  | .dict kvs => "\x7b" ++ String.intercalate ", " (pyReprKVs kvs) ++ "\x7d"

def pyReprList : List Val → List String
  | [] => []
  | v :: vs => pyRepr v :: pyReprList vs

def pyReprKVs : List (String × Val) → List String
  | [] => []
  | (k, v) :: kvs => ("'" ++ k ++ "': " ++ pyRepr v) :: pyReprKVs kvs
end

/-- The text before the first occurrence of `sep`: `s.split(sep, 1)[0]`. -/
def beforeFirst (s : String) (sep : String) : String :=
  ((pySplitOn s sep).headD s)

/-- The text after the first occurrence of `sep`: `s.split(sep, 1)[1]`,
or the whole string when `sep` does not occur. -/
def afterFirst (s : String) (sep : String) : String :=
  match pySplitOn s sep with
  | [] => s
  | [_] => s
  | _ :: rest => String.intercalate sep rest

/-- `value is None`. -/
def isNull : Val → Bool
  | .null => true
  | _ => false

/-- `_normalize_asset_key` (tasks.py:290-296): `str(value).strip()`, strip a
leading case-insensitive `http://` / `https://`, and keep only the part
before the first `/`. -/
def normalizeAssetKey (value : Val) : String :=
  if isNull value then ""
  else
    let s := pyStrip (pyStr value)
    let s :=
      if pyLower (s.take 8) = "https://" then s.drop 8
      else if pyLower (s.take 7) = "http://" then s.drop 7
      else s
    beforeFirst s "/"

/-- Python `needle in hay` for strings. -/
def strContains (hay needle : String) : Bool := (pySplitOn hay needle).length > 1

/-- An uncaught Python exception is modelled by `Except.error ()`. -/
abbrev Py (α : Type) := Except Unit α

/-! ## Template renderer (`_get_path_value`, `_render_string`, `_render_value`) -/

/-- The inner `_walk` of `_get_path_value` (tasks.py:274-281): follow a dotted
path through nested dicts; a missing key or a non-dict on the way gives
Python `None`. -/
def walkPath : Val → List String → Val
  | cur, [] => cur
  | .dict kvs, p :: ps =>
      match dget? kvs p with
      | some v => walkPath v ps
      | none => .null
  | _, _ :: _ => .null

/-- `_get_path_value` (tasks.py:273-287): resolve the dotted path against the
record first, falling back to the context when the record walk yields `None`. -/
def getPathValue (path : String) (record context : PyDict) : Val :=
  let parts := pySplitOn path "."
  let v := walkPath (.dict record) parts
  if isNull v then walkPath (.dict context) parts else v

def dollarChar : Char := Char.ofNat 36
def openBraceChar : Char := Char.ofNat 123
def closeBraceChar : Char := Char.ofNat 125

/-- The body of `_replace` (tasks.py:303-315), applied to the text captured
by `([^\x7d]+)`. -/
def renderExpr (record context : PyDict) (captured : String) : String :=
  let key := pyStrip captured
  if pyStartsWith key "assets.by_name:" then
    let field := afterFirst key ":"
    let lookupKey := getPathValue field record context
    if isNull lookupKey then ""
    else
      let assetsByName := pyOr (vget (pyOr (dget context "assets") (.dict [])) "by_name") (.dict [])
      let normalized := normalizeAssetKey lookupKey
      let found :=
        match assetsByName with
        | .dict kvs => dgetD kvs (pyStr lookupKey) (dgetD kvs normalized (.str ""))
        | _ => Val.str ""
      if isNull found then "" else pyStr found
  else
    let v := getPathValue key record context
    if isNull v then "" else pyStr v

/-- Split a character list at its first closing brace: the characters before
it and those after it; `none` when no closing brace occurs. -/
def findClose : List Char → Option (List Char × List Char)
  | [] => none
  | c :: cs =>
      if c = closeBraceChar then some ([], cs)
      else
        match findClose cs with
        | some (content, rest) => some (c :: content, rest)
        | none => none

/-- Left-to-right, non-overlapping substitution of the regex
`\$\x7b([^\x7d]+)\x7d` (`_TEMPLATE_RE.sub(_replace, value)`,
tasks.py:299-317) over the character list of the string.  The `fuel`
argument only makes the recursion structural: every recursive call consumes
one unit and strictly shortens the list, so any `fuel` larger than the list
length is enough (`renderCharsFuel_le` below). -/
def renderCharsFuel (record context : PyDict) : Nat → List Char → List Char
  | _, [] => []
  | 0, l => l
  | fuel + 1, c :: rest =>
      match rest with
      | [] => [c]
      | c2 :: rest2 =>
          if c = dollarChar ∧ c2 = openBraceChar then
            match findClose rest2 with
            | some (content, rest') =>
                if content.isEmpty then c :: renderCharsFuel record context fuel rest
                else (renderExpr record context (String.mk content)).data ++
                  renderCharsFuel record context fuel rest'
            | none => c :: renderCharsFuel record context fuel rest
          else c :: renderCharsFuel record context fuel rest

/-- `_render_string` (tasks.py:302-317). -/
def renderString (value : String) (record context : PyDict) : String :=
  String.mk (renderCharsFuel record context (value.data.length + 1) value.data)

mutual
/-- `_render_value` (tasks.py:320-327): strings are template-substituted,
lists and dict values element-wise, everything else passes through. -/
def renderValue (record context : PyDict) : Val → Val
  | .str s => .str (renderString s record context)
  | .list xs => .list (renderValueList record context xs)
  | .dict kvs => .dict (renderValueKVs record context kvs)
  | v => v

def renderValueList (record context : PyDict) : List Val → List Val
  | [] => []
  | v :: vs => renderValue record context v :: renderValueList record context vs

def renderValueKVs (record context : PyDict) : List (String × Val) → List (String × Val)
  | [] => []
  | (k, v) :: kvs => (k, renderValue record context v) :: renderValueKVs record context kvs
end

/-! ## HTTP method and scheme/port inference -/

/-- `_extract_http_method` (tasks.py:359-368).  A truthy non-string request
raises (`.splitlines()` on a non-string). -/
def extractHttpMethod (request : Val) : Py Val :=
  if !truthy request then .ok .null
  else
    match request with
    | .str s =>
        let firstLine := pyStrip ((pySplitOn s "\n").headD "")
        if firstLine = "" then .ok .null
        else
          match pySplitWs firstLine with
          | [] => .ok .null
          | p :: _ => .ok (.str (pyUpper p))
    | _ => .error ()

/-- `(scheme or "").lower()`: raises on a truthy non-string. -/
def lowerOrEmpty (v : Val) : Py String :=
  match pyOr v (.str "") with
  | .str s => .ok (pyLower s)
  | _ => .error ()

/-- The scheme/netloc part of `urllib.parse.urlparse`. -/
structure UrlParsed where
  scheme : String
  netloc : String
deriving Repr

def validScheme (s : String) : Bool :=
  match s.toList with
  | [] => false
  | c :: cs => c.isAlpha && cs.all (fun d => d.isAlphanum || d = '+' || d = '-' || d = '.')

/-- `urllib.parse.urlparse`, restricted to the scheme and netloc components
the engine reads. -/
def pyUrlparse (s : String) : UrlParsed :=
  let before := beforeFirst s ":"
  let (scheme, rest) :=
    if before ≠ s ∧ validScheme before then (pyLower before, s.drop (before.length + 1))
    else ("", s)
  let netloc :=
    if pyStartsWith rest "//" then
      beforeFirst (beforeFirst (beforeFirst (rest.drop 2) "/") "?") "#"
    else ""
  ⟨scheme, netloc⟩

/-- The port text of a netloc, as `urllib.parse`'s `_hostinfo` computes it:
the part after the first `:` following any `@`-userinfo (after the `]` of a
bracketed host). -/
def urlPortStr (netloc : String) : Option String :=
  let hostinfo := (pySplitOn netloc "@").getLastD netloc
  if strContains hostinfo "[" then
    let bracketed := afterFirst hostinfo "["
    let afterBr := afterFirst bracketed "]"
    if strContains afterBr ":" then some (afterFirst afterBr ":") else none
  else
    if strContains hostinfo ":" then some (afterFirst hostinfo ":") else none

/-- `urllib.parse`'s `.port` property: `none` when the netloc carries no
port text; a `ValueError` on non-numeric or out-of-range text. -/
def urlPort (netloc : String) : Py (Option Nat) :=
  match urlPortStr netloc with
  | none => .ok none
  | some p =>
      match pyParseNat p with
      | some n => if n ≤ 65535 then .ok (some n) else .error ()
      | none => .error ()

/-- The scheme/port pair `_infer_scheme_port` returns. -/
structure SchemePort where
  scheme : Option String
  port : Val
deriving Repr

/-- The net effect of one `resolved_port`-update branch of the `try` block
(tasks.py:380-385): the update only happens when `resolved_port` is still
blank and `parsed.port` is truthy; a `ValueError` from `parsed.port` is
swallowed by the `except Exception: pass`. -/
def urlPortUpdate (netloc : String) (port : Val) : Val :=
  if isBlank port then
    match urlPort netloc with
    | .ok (some p) => if p ≠ 0 then .int p else port
    | _ => port
  else port

/-- The `resolved_scheme` update of the `try` block (tasks.py:376-379): it
fires only for a truthy string URL containing `://` whose parsed scheme is
http/https and when no explicit scheme was given; a non-string URL raises a
`TypeError` at the `in` test, swallowed by the `except`. -/
def urlSchemeUpdate (url : Val) (rs0 : Option String) : Option String :=
  if truthy url then
    match url with
    | .str u =>
        if strContains u "://" then
          let parsed := pyUrlparse u
          if rs0.isNone ∧ (parsed.scheme = "http" ∨ parsed.scheme = "https")
          then some (pyLower parsed.scheme) else rs0
        else rs0
    | _ => rs0
  else rs0

/-- The `resolved_port` update of the `try` block (tasks.py:375-387): the
URL (prefixed with `http://` when scheme-less) contributes its explicit
netloc port when the port is still blank. -/
def urlPortUpdateFull (url : Val) (port : Val) : Val :=
  if truthy url then
    match url with
    | .str u =>
        if strContains u "://" then urlPortUpdate (pyUrlparse u).netloc port
        else urlPortUpdate (pyUrlparse ("http://" ++ u)).netloc port
    | _ => port
  else port

/-- `_infer_scheme_port` (tasks.py:371-390). -/
def inferSchemePort (url scheme port : Val) : Py SchemePort := do
  let s0 ← lowerOrEmpty scheme
  let resolvedScheme0 : Option String := if s0 = "" then none else some s0
  let resolvedScheme := urlSchemeUpdate url resolvedScheme0
  let resolvedPort := urlPortUpdateFull url port
  let finalPort :=
    if isBlank resolvedPort ∧ (resolvedScheme = some "http" ∨ resolvedScheme = some "https") then
      if resolvedScheme = some "https" then Val.int 443 else Val.int 80
    else resolvedPort
  return ⟨resolvedScheme, finalPort⟩

/-! ## Vulnerability subtype classifier -/

/-- `_classify_vuln_type` (tasks.py:392-403): an explicit non-"DAST"
`type`/`vtype` wins; else the finding's `type` value or a dig-style raw
request classifies as NETWORK; else WEB.  A truthy non-string `type`/`vtype`
raises at `.upper()`, and a truthy non-dict `finding`/`raw` raises at
`.get`. -/
def classifyVulnType (payload : PyDict) (record : PyDict) : Py String :=
  match pyOr (dget payload "type") (pyOr (dget payload "vtype") (.str "")) with
  | .str s =>
      let explicitS := pyUpper s
      if explicitS ≠ "" ∧ explicitS ≠ "DAST" then .ok explicitS
      else
        match pyOr (dget record "finding") (.dict []) with
        | .dict fkvs =>
            let ftype := if truthy (dget fkvs "type") then pyLower (pyStr (dget fkvs "type")) else ""
            if ftype = "dns" ∨ ftype = "ssl" ∨ ftype = "tcp" ∨ ftype = "udp" ∨ ftype = "network" then
              .ok "NETWORK"
            else
              match pyOr (dget record "raw") (.dict []) with
              | .dict rkvs =>
                  match dget rkvs "request" with
                  | .str s2 => if pyStartsWith (pyLStrip s2) ";;" then .ok "NETWORK" else .ok "WEB"
                  | _ => .ok "WEB"
              | _ => .error ()
        | _ => .error ()
  | _ => .error ()

/-! ## Output format parsers -/

/-- An XML element as produced by `xml.etree.ElementTree`. -/
structure XmlElem where
  tag : String
  attrs : List (String × String)
  children : List XmlElem

def xattr (e : XmlElem) (k : String) : Option String :=
  (e.attrs.find? (fun kv => kv.1 == k)).map (·.2)

/-- `elem.findall(tag)`: the direct children with the given tag. -/
def xfindall (e : XmlElem) (t : String) : List XmlElem :=
  e.children.filter (fun c => c.tag == t)

/-- `elem.find(tag)`: the first direct child with the given tag. -/
def xfind (e : XmlElem) (t : String) : Option XmlElem := (xfindall e t).head?

def optToVal : Option String → Val
  | some s => .str s
  | none => .null

/-- The record appended for one kept host (tasks.py:337-355): first
IPv4/IPv6 address, else the first address of any kind; first
`hostnames/hostname` name. -/
def nmapHostRecord (host : XmlElem) : Val :=
  let address : Option String :=
    match (xfindall host "address").find?
        (fun a => xattr a "addrtype" = some "ipv4" || xattr a "addrtype" = some "ipv6") with
    | some a => xattr a "addr"
    | none =>
        match xfind host "address" with
        | some a => xattr a "addr"
        | none => none
  let hostname : Option String :=
    match ((xfindall host "hostnames").flatMap (fun hn => xfindall hn "hostname")).head? with
    | some h => xattr h "name"
    | none => none
  .dict [("host", .dict [("address", optToVal address), ("hostname", optToVal hostname)])]

/-- The body of `_parse_nmap_xml`'s host loop (tasks.py:333-355): `none`
models the `continue` for a host whose status is present and not "up". -/
def nmapHostFinding (host : XmlElem) : Option Val :=
  match xfind host "status" with
  | some status => if xattr status "state" ≠ some "up" then none else some (nmapHostRecord host)
  | none => some (nmapHostRecord host)

/-- `_parse_nmap_xml` (tasks.py:330-356) applied to the parsed document
root. -/
def parseNmapXml (root : XmlElem) : List Val :=
  (xfindall root "host").filterMap nmapHostFinding

/-- The whole of `_parse_nmap_xml` including `ET.fromstring`: a text that is
not well-formed XML (`none`) raises `ParseError`. -/
def parseNmapXmlText (doc : Option XmlElem) : Py (List Val) :=
  match doc with
  | none => .error ()
  | some root => .ok (parseNmapXml root)

/-- One nonblank input line after `json.loads`: `none` when decoding raised
`JSONDecodeError`, otherwise the decoded value. -/
abbrev DecodedLine := Option Val

/-- The per-line body of `_parse_nuclei_json_lines` (tasks.py:416-454) for a
decoded line.  Every `raw.get`, `.lower()`, `in`-test the source performs on
a value of the wrong type raises. -/
def processNucleiObject (raw : Val) (rawD : PyDict) : Py Val :=
    match pyOr (dget rawD "info") (.dict []) with
    | .dict infoD =>
      match (if truthy (dget rawD "method") then Except.ok (dget rawD "method")
             else extractHttpMethod (dget rawD "request")) with
      | .error e => .error e
      | .ok methodV =>
        match inferSchemePort (pyOr (dget rawD "url") (dget rawD "matched-at"))
            (dget rawD "scheme") (dget rawD "port") with
        | .error e => .error e
        | .ok inferred =>
          match (if truthy (pyOr (dget rawD "url") (dget rawD "matched-at")) then
                   match pyOr (dget rawD "url") (dget rawD "matched-at") with
                   | .str u =>
                       if !strContains u "://" ∧
                           (inferred.scheme = some "http" ∨ inferred.scheme = some "https") then
                         Except.ok (Val.str (inferred.scheme.getD "" ++ "://" ++ u))
                       else Except.ok (pyOr (dget rawD "url") (dget rawD "matched-at"))
                   | _ => Except.error ()
                 else Except.ok (pyOr (dget rawD "url") (dget rawD "matched-at"))) with
          | .error e => .error e
          | .ok url1 =>
            let remediation := dget infoD "remediation"
            let reference := dget infoD "reference"
            let refVal :=
              match reference with
              | .list [] => Val.null
              | .list (x :: _) => x
              | v => v
            let solution := pyOr remediation refVal
            let finding : PyDict := [
              ("name", pyOr (dget infoD "name") (dget rawD "template-id")),
              ("description", dget infoD "description"),
              ("severity", dget infoD "severity"),
              ("type", dget rawD "type"),
              ("templateId", dget rawD "template-id"),
              ("matcherName", dget rawD "matcher-name"),
              ("host", dget rawD "host"),
              ("matchedAt", dget rawD "matched-at"),
              ("ip", dget rawD "ip"),
              ("url", url1),
              ("scheme", match inferred.scheme with | some s => .str s | none => .null),
              ("port", inferred.port),
              ("method", methodV),
              ("request", dget rawD "request"),
              ("response", dget rawD "response"),
              ("solution", solution),
              ("reference", reference),
              ("timestamp", dget rawD "timestamp")]
            Except.ok (.dict [("finding", .dict finding), ("raw", raw)])
    | _ => .error ()

/-- Dispatch on the decoded line being an object (`raw.get` raises on
anything else). -/
def processNucleiEntry (raw : Val) : Py Val :=
  match raw with
  | .dict rawD => processNucleiObject raw rawD
  | _ => .error ()

/-- `_parse_nuclei_json_lines` (tasks.py:406-455) over the decoded nonblank
lines: a line that failed JSON decoding is skipped (`continue`); an
exception from the entry body propagates and aborts the whole parse. -/
def parseNucleiJsonLines : List DecodedLine → Py (List Val)
  | [] => .ok []
  | none :: rest => parseNucleiJsonLines rest
  | some raw :: rest => do
      let item ← processNucleiEntry raw
      let others ← parseNucleiJsonLines rest
      return item :: others

/-- The name/host/url back-fill of `_parse_scan_json_lines`
(tasks.py:471-477). -/
def backfillScanFinding (f : PyDict) : PyDict :=
  let f1 := if !dmem f "name" && dmem f "title" then dset f "name" (dget f "title") else f
  let f2 := if !dmem f1 "host" && dmem f1 "asset" then dset f1 "host" (dget f1 "asset") else f1
  if !dmem f2 "url" && dmem f2 "matchedAt" then dset f2 "url" (dget f2 "matchedAt") else f2

/-- The per-line body of `_parse_scan_json_lines` (tasks.py:465-481): a
decoded non-dict is skipped; when the entry is wrapped under a `finding` key
the back-fill mutates that shared sub-dict of `raw` in place, otherwise it
works on a copy of `raw`. -/
def processScanEntry (raw : Val) : Option Val :=
  match raw with
  | .dict rawD =>
      match dget rawD "finding" with
      | .dict f =>
          let f3 := backfillScanFinding f
          some (.dict [("finding", .dict f3), ("raw", .dict (dset rawD "finding" (.dict f3)))])
      | _ =>
          let f3 := backfillScanFinding rawD
          some (.dict [("finding", .dict f3), ("raw", .dict rawD)])
  | _ => none

/-- `_parse_scan_json_lines` (tasks.py:458-482) over the decoded nonblank
lines: undecodable lines and decoded non-dict lines are skipped; the parse
never raises. -/
def parseScanJsonLines (lines : List DecodedLine) : List Val :=
  lines.filterMap (fun l => l.bind processScanEntry)

/-! ## Recipe validator (`_validate_task_yaml`)

`clean` and `normalize` stand for `_clean_description` and
`_normalize_yaml_steps` (pure text-to-text repairs whose regex/HTML
internals the claims do not depend on); `load` stands for `yaml.safe_load`,
with `Except.error` for a raised parse error and `Val.null` for a YAML
`None` document. -/

/-- `try: data = yaml.safe_load(s)  except Exception: data = None`. -/
def loadOrNone (load : String → Py Val) (s : String) : Val :=
  match load s with
  | .ok v => v
  | .error _ => .null

/-- tasks.py:236-248: the parsed document after the first
normalization retry (the retry fires only when the direct parse is not a
mapping and normalization changes the text). -/
def validatorData1 (normalize : String → String) (load : String → Py Val)
    (cleaned : String) : Val :=
  let data0 := loadOrNone load cleaned
  match data0 with
  | .dict kvs => .dict kvs
  | _ =>
      let normalized := normalize cleaned
      if normalized ≠ cleaned then loadOrNone load normalized else data0

/-- tasks.py:251-262: given a parsed mapping, the final `(data, steps)` pair
after the second normalization retry (which fires only when `steps` is not a
list; `data` is rebound to the re-parse, and `steps` re-read, only when the
re-parse is a mapping). -/
def validatorStage2 (normalize : String → String) (load : String → Py Val)
    (cleaned : String) (kvs : PyDict) : Val × Val :=
  let steps0 := dget kvs "steps"
  match steps0 with
  | .list xs => (.dict kvs, .list xs)
  | _ =>
      let normalized := normalize cleaned
      if normalized ≠ cleaned then
        let data2 := loadOrNone load normalized
        match data2 with
        | .dict kvs2 => (.dict kvs2, dget kvs2 "steps")
        | _ => (data2, steps0)
      else (.dict kvs, steps0)

/-- The `steps` value the validator ends up examining; `none` when the
document (even after the retry) is not a mapping. -/
def validatorSteps (normalize : String → String) (load : String → Py Val)
    (cleaned : String) : Option Val :=
  match validatorData1 normalize load cleaned with
  | .dict kvs => some (validatorStage2 normalize load cleaned kvs).2
  | _ => none

/-- The mapping `_validate_task_yaml` returns, with absent keys as their
`.get` defaults. -/
structure ValidationResult where
  ok : Bool
  reason : String
  name : Val := .null
  steps : Option Nat := none
deriving Repr

/-- `_validate_task_yaml` (tasks.py:232-270). -/
def validateTaskYaml (clean normalize : String → String) (load : String → Py Val)
    (desc : String) : ValidationResult :=
  if clean desc = "" then ⟨false, "empty_description", .null, none⟩
  else
    match validatorData1 normalize load (clean desc) with
    | .dict kvs =>
        match validatorStage2 normalize load (clean desc) kvs with
        | (dataF, .list xs) =>
            if xs.length ≠ 1 then ⟨false, "steps=" ++ toString xs.length, .null, none⟩
            else ⟨true, "", pyOr (vget dataF "name") (.str ""), some xs.length⟩
        | _ => ⟨false, "missing_steps", .null, none⟩
    | _ => ⟨false, "invalid_yaml", .null, none⟩

/-! ## Task runner: per-activity recipe handling (tasks.py:1419-1454) -/

/-- How `run_task` disposes of one activity before any command runs:
`skip` models `continue` (a warning is logged and the run moves to the next
activity); `abort` models `raise typer.Exit(code=1)` at the
more-than-one-step check, which happens before the step's command is
rendered, approved or executed; `proceed` hands `steps[0]` to the
command-execution part of the loop. -/
inductive ActivityOutcome where
  | skip (reason : String)
  | abort
  | proceed (step : Val)
deriving Repr

/-- The `try` block of tasks.py:1424-1432: parse the cleaned description,
retrying once on the normalized text when the result is not a mapping with a
`steps` list; an exception from either parse propagates (and is caught by
the caller as "invalid YAML"). -/
def runTaskLoadedDef (normalize : String → String) (load : String → Py Val)
    (cleaned : String) : Py Val := do
  let d0 ← load cleaned
  let needRetry :=
    match d0 with
    | .dict kvs =>
        match dget kvs "steps" with
        | .list _ => false
        | _ => true
    | _ => true
  if needRetry then
    let normalized := normalize cleaned
    if normalized ≠ cleaned then load normalized else Except.ok d0
  else Except.ok d0

/-- tasks.py:1421-1454: the disposition of one activity description. -/
def runTaskActivityOutcome (clean normalize : String → String) (load : String → Py Val)
    (desc : String) : ActivityOutcome :=
  let cleaned := clean desc
  if cleaned = "" then .skip "empty_description"
  else
    match runTaskLoadedDef normalize load cleaned with
    | .error _ => .skip "invalid_yaml"
    | .ok taskDef =>
        match taskDef with
        | .dict kvs =>
            if !dmem kvs "steps" then .skip "missing_steps"
            else
              match pyOr (dget kvs "steps") (.list []) with
              | .list xs =>
                  if xs.isEmpty then .skip "empty_steps"
                  else if xs.length ≠ 1 then .abort
                  else .proceed (xs.headD .null)
              | _ => .skip "empty_steps"
        | _ => .skip "missing_steps"

/-! ## Approval store (tasks.py:41-71) and gate (tasks.py:1535-1546)

`hashFn` models `hashlib.sha256(cmd.encode("utf-8")).hexdigest()` — the
external hash library; the store is the JSON object held in the approvals
file, keyed by the digest. -/

/-- One value of the approvals mapping (tasks.py:70). -/
structure ApprovalRecord where
  cmd : String
  approvedAt : Int
deriving Repr, DecidableEq

abbrev ApprovalStore := List (String × ApprovalRecord)

/-- `approvals[key] = record`: replace in place or append. -/
def storeSet (st : ApprovalStore) (k : String) (r : ApprovalRecord) : ApprovalStore :=
  match st with
  | [] => [(k, r)]
  | (k', r') :: rest => if k' = k then (k, r) :: rest else (k', r') :: storeSet rest k r

/-- `approvals.get(key)`. -/
def storeGet : ApprovalStore → String → Option ApprovalRecord
  | [], _ => none
  | (k', r) :: rest, k => if k' = k then some r else storeGet rest k

/-- `key in approvals`. -/
def storeMem (st : ApprovalStore) (k : String) : Bool := (storeGet st k).isSome

/-- The number of records the store holds under a key. -/
def storeCountKey : ApprovalStore → String → Nat
  | [], _ => 0
  | (k', _) :: rest, k => (if k' = k then 1 else 0) + storeCountKey rest k

/-- `_command_key` (tasks.py:58-59). -/
def commandKey (hashFn : String → String) (cmd : String) : String := hashFn cmd

/-- `_is_command_approved` (tasks.py:62-64) against the loaded store. -/
def isCommandApproved (hashFn : String → String) (st : ApprovalStore) (cmd : String) : Bool :=
  storeMem st (commandKey hashFn cmd)

/-- `_approve_command` (tasks.py:67-71): load, set the one key, save. -/
def approveCommand (hashFn : String → String) (st : ApprovalStore) (cmd : String)
    (now : Int) : ApprovalStore :=
  storeSet st (commandKey hashFn cmd) ⟨cmd, now⟩

/-- The approval gate for one rendered command (tasks.py:1535-1546):
`proceedRun` falls through to `subprocess.run`; `skipStep` models the
`continue` of the declined branch, which reaches neither the subprocess nor
the success/failure accounting of the step. -/
inductive GateOutcome where
  | proceedRun (store : ApprovalStore)
  | skipStep (store : ApprovalStore)
deriving Repr, DecidableEq

def approvalGate (hashFn : String → String) (st : ApprovalStore) (cmd : String)
    (autoApprove userConfirms : Bool) (now : Int) : GateOutcome :=
  if !isCommandApproved hashFn st cmd then
    if autoApprove then .proceedRun (approveCommand hashFn st cmd now)
    else if !userConfirms then .skipStep st
    else .proceedRun (approveCommand hashFn st cmd now)
  else .proceedRun st

/-- The gate together with its observable effect: the second component is
the list of commands handed to `subprocess.run` (tasks.py:1547), which the
declined branch never reaches. -/
def gateAndRun (hashFn : String → String) (st : ApprovalStore) (cmd : String)
    (autoApprove userConfirms : Bool) (now : Int) : ApprovalStore × List String :=
  match approvalGate hashFn st cmd autoApprove userConfirms now with
  | .skipStep st' => (st', [])
  | .proceedRun st' => (st', [cmd])

/-! ## Action dispatcher: the `vulns.create` branch

Embeds the shared payload rendering (tasks.py:881-887) and the
`vulns.create` branch (tasks.py:956-1163) of `_apply_actions`, with
`_create_asset`, `_find_asset_by_name` and `_create_vulnerability` as the
remote collaborators.  `Except.error` models `typer.Exit` or an uncaught
exception aborting the run. -/

/-- A remote GraphQL call the dispatcher can issue. -/
inductive RemoteCall where
  | searchAsset (name : String)
  | createAsset (input : PyDict)
  | createVuln (vtype : String) (input : PyDict)
deriving Repr

/-- The remote catalog's responses: the asset id an exact-name search finds
(`_find_asset_by_name`; `none` for no match or a swallowed transport error)
and the id the `createAsset` mutation returns. -/
structure RemoteEnv where
  findAssetByName : String → Option Int
  createAssetRemote : PyDict → Option Int

/-- `_find_asset_by_name` (tasks.py:681-715): an empty name returns `None`
without any remote traffic; otherwise one remote search happens. -/
def findAssetCall (env : RemoteEnv) (name : String) : Option Int × List RemoteCall :=
  if name = "" then (none, [])
  else (env.findAssetByName name, [.searchAsset name])

/-- `_create_asset` (tasks.py:633-654): in dry-run mode it returns `None`
without any remote call; otherwise it issues the `createAsset` mutation with
`companyId` added to the payload. -/
def createAsset (env : RemoteEnv) (companyId : Int) (payload : PyDict) (apply : Bool) :
    Option Int × List RemoteCall :=
  if !apply then (none, [])
  else
    let input := dset payload "companyId" (.int companyId)
    (env.createAssetRemote input, [.createAsset input])

/-- Python `int(v)`: `ValueError`/`TypeError` on anything but an int, bool
or an integer-looking string. -/
def pyInt (v : Val) : Py Int :=
  match v with
  | .int n => Except.ok n
  | .bool b => Except.ok (if b then 1 else 0)
  | .str s =>
      match pyParseInt s with
      | some n => Except.ok n
      | none => Except.error ()
  | _ => Except.error ()

/-- `for r in required: if payload.get(r) in (None, ""): raise ValueError`. -/
def checkRequired (req : List String) (p : PyDict) : Py Unit :=
  if req.all (fun r => !isBlank (dget p r)) then Except.ok () else Except.error ()

/-- Dict-literal merge: set the pairs left to right. -/
def dsets (d : PyDict) : List (String × Val) → PyDict
  | [] => d
  | (k, v) :: rest => dsets (dset d k v) rest

/-- The `common` dict of `_create_vulnerability` (tasks.py:725-738). -/
def commonVulnPayload (payload : PyDict) : PyDict :=
  (["assetId", "title", "description", "solution", "impactLevel", "probabilityLevel",
    "severity", "status", "category", "projectId", "companyId"].map
      (fun k => (k, dget payload k))).filter (fun kv => !isBlank kv.2)

/-- `_create_vulnerability` (tasks.py:718-853): a no-op in dry-run mode;
otherwise re-checks the subtype's required fields (`ValueError` on a missing
one), builds the mutation input and issues the per-subtype creation call. -/
def createVulnerability (payload : PyDict) (apply : Bool) : Py (List RemoteCall) := do
  if !apply then Except.ok []
  else do
    let vtypeV := pyOr (dget payload "type") (pyOr (dget payload "vtype") (.str ""))
    let vtype ← match vtypeV with
      | .str s => Except.ok (pyUpper s)
      | _ => Except.error ()
    if vtype = "" then Except.error ()
    else do
      let common := commonVulnPayload payload
      if vtype = "DAST" then do
        checkRequired ["assetId", "title", "description", "solution", "impactLevel",
          "probabilityLevel", "severity", "method", "scheme", "url", "port", "request",
          "response"] payload
        let common := common.filter (fun kv => kv.1 ≠ "status" ∧ kv.1 ≠ "companyId")
        let port ← pyInt (dget payload "port")
        let input := dsets common [
          ("method", .str (pyUpper (pyStr (dget payload "method")))),
          ("scheme", .str (pyUpper (pyStr (dget payload "scheme")))),
          ("url", dget payload "url"),
          ("port", .int port),
          ("request", dget payload "request"),
          ("response", dget payload "response"),
          ("parameters", dget payload "parameters"),
          ("reference", dget payload "reference")]
        Except.ok [.createVuln "DAST" input]
      else if vtype = "WEB" then do
        checkRequired ["assetId", "title", "description", "severity", "method", "scheme",
          "url", "port", "request", "response"] payload
        let common := common.filter (fun kv => kv.1 ≠ "companyId")
        let port ← pyInt (dget payload "port")
        let input := dsets common [
          ("method", .str (pyUpper (pyStr (dget payload "method")))),
          ("scheme", .str (pyUpper (pyStr (dget payload "scheme")))),
          ("url", dget payload "url"),
          ("port", .int port),
          ("request", dget payload "request"),
          ("response", dget payload "response"),
          ("summary", pyOr (dget payload "summary") (dget payload "title")),
          ("impactDescription", pyOr (dget payload "impactDescription") (dget payload "description")),
          ("stepsToReproduce", pyOr (dget payload "stepsToReproduce") (dget payload "description")),
          ("parameters", dget payload "parameters")]
        Except.ok [.createVuln "WEB" input]
      else if vtype = "NETWORK" then do
        checkRequired ["assetId", "title", "description", "solution", "impactLevel",
          "probabilityLevel", "severity", "address", "protocol", "port", "attackVector"] payload
        let common := common.filter (fun kv => kv.1 ≠ "companyId")
        let port ← pyInt (dget payload "port")
        let input := dsets common [
          ("address", dget payload "address"),
          ("protocol", dget payload "protocol"),
          ("port", .int port),
          ("attackVector", dget payload "attackVector"),
          ("summary", pyOr (dget payload "summary") (dget payload "title")),
          ("impactDescription", pyOr (dget payload "impactDescription") (dget payload "description")),
          ("stepsToReproduce", pyOr (dget payload "stepsToReproduce") (dget payload "description"))]
        Except.ok [.createVuln "NETWORK" input]
      else if vtype = "SOURCE" then do
        checkRequired ["assetId", "title", "description", "solution", "impactLevel",
          "probabilityLevel", "severity", "fileName", "vulnerableLine", "firstLine",
          "codeSnippet"] payload
        let vulnerableLine ← pyInt (dget payload "vulnerableLine")
        let firstLine ← pyInt (dget payload "firstLine")
        let input := dsets common [
          ("fileName", dget payload "fileName"),
          ("vulnerableLine", .int vulnerableLine),
          ("firstLine", .int firstLine),
          ("codeSnippet", dget payload "codeSnippet"),
          ("summary", pyOr (dget payload "summary") (dget payload "title")),
          ("impactDescription", pyOr (dget payload "impactDescription") (dget payload "description")),
          ("stepsToReproduce", pyOr (dget payload "stepsToReproduce") (dget payload "description")),
          ("reference", dget payload "reference"),
          ("source", dget payload "source"),
          ("sink", dget payload "sink"),
          ("commitRef", dget payload "commitRef"),
          ("deployId", dget payload "deployId")]
        Except.ok [.createVuln "SOURCE" input]
      else Except.error ()

/-- The rendered payload of one planned entry (tasks.py:881-887): defaults
first, then the map, which never overwrites an already-resolved `assetId`. -/
def renderActionPayload (defaults mapping : PyDict) (record context : PyDict) : PyDict :=
  let p0 := defaults.foldl (fun acc kv => dset acc kv.1 (renderValue record context kv.2)) []
  mapping.foldl (fun acc kv =>
    if kv.1 = "assetId" ∧ !isBlank (dget acc "assetId") then acc
    else dset acc kv.1 (renderValue record context kv.2)) p0

/-- Severity normalization (tasks.py:957-964). -/
def normalizeSeverity (payload : PyDict) : PyDict :=
  match dget? payload "severity" with
  | some (.str s) =>
      let sev := pyUpper (pyStrip s)
      if sev = "INFO" ∨ sev = "INFORMATIONAL" then dset payload "severity" (.str "NOTIFICATION")
      else dset payload "severity" (.str sev)
  | _ => payload

/-- The allow-list of asset-creation fields (tasks.py:995). -/
def assetAllowedFields : List String :=
  ["name", "description", "businessImpact", "dataClassification", "assetsTagList",
   "integrations", "environmentCompromised", "exploitability"]

/-- `\x7bk: asset_payload.get(k) for k in allowed if asset_payload.get(k)
not in (None, "")\x7d` (tasks.py:996). -/
def filterAssetPayload (p : PyDict) : PyDict :=
  assetAllowedFields.foldl (fun acc k =>
    if !isBlank (dget p k) then dset acc k (dget p k) else acc) []

/-- tasks.py:997-998: upper-case a string `exploitability`. -/
def upperExploitability (p : PyDict) : PyDict :=
  match dget? p "exploitability" with
  | some (.str s) => dset p "exploitability" (.str (pyUpper s))
  | _ => p

/-- `(context.get("assets") or \x7b\x7d).get("by_name") or \x7b\x7d`
(tasks.py:983): the in-memory name→id cache.  The engine's run context
always holds a dict here; a truthy non-dict would send the source down
untyped-`in` behaviour that is out of the model, so it is flagged as an
error. -/
def cacheRead (context : PyDict) : Py PyDict :=
  match pyOr (dget context "assets") (.dict []) with
  | .dict akvs =>
      match pyOr (dget akvs "by_name") (.dict []) with
      | .dict bn => Except.ok bn
      | _ => Except.error ()
  | _ => Except.error ()

/-- One write `assets_cache[key] = asset_id` through
`(context.get("assets") or \x7b\x7d).setdefault("by_name", \x7b\x7d)`
(tasks.py:1017-1019): when `context["assets"]` is a truthy dict the shared
`by_name` dict is updated in place (and created by the `setdefault` when
absent); when `context["assets"]` is absent or falsy, the write lands in the
fresh temporary dict `or \x7b\x7d` built and is lost; item assignment
through a non-dict raises. -/
def cacheWrite (context : PyDict) (key : String) (v : Val) : Py PyDict :=
  let assetsV := dget context "assets"
  if truthy assetsV then
    match assetsV with
    | .dict akvs =>
        match dget? akvs "by_name" with
        | some (.dict bn) =>
            Except.ok (dset context "assets" (.dict (dset akvs "by_name" (.dict (dset bn key v)))))
        | some _ => Except.error ()
        | none => Except.ok (dset context "assets" (.dict (dset akvs "by_name" (.dict [(key, v)]))))
    | _ => Except.error ()
  else Except.ok context

/-- `if payload.get(k) in (None, ""): payload[k] = v`. -/
def defaultBlank (p : PyDict) (k : String) (v : Val) : PyDict :=
  if isBlank (dget p k) then dset p k v else p

/-- The WEB defaulting block (tasks.py:1053-1097). -/
def webDefaults (q : PyDict) : Py PyDict := do
  let p := defaultBlank q "solution"
    (pyOr (dget q "description") (pyOr (dget q "title") (.str "See description")))
  let p := defaultBlank p "impactLevel" (.str "LOW")
  let p := defaultBlank p "probabilityLevel" (.str "LOW")
  let p := defaultBlank p "summary" (pyOr (dget p "title") (.str "-"))
  let p := defaultBlank p "impactDescription"
    (pyOr (dget p "description") (pyOr (dget p "title") (.str "-")))
  let p := defaultBlank p "stepsToReproduce"
    (pyOr (dget p "description") (pyOr (dget p "title") (.str "-")))
  let p ←
    if isBlank (dget p "method") then do
      let m ← extractHttpMethod (dget p "request")
      Except.ok (dset p "method" m)
    else Except.ok p
  let inferred ← inferSchemePort (dget p "url") (dget p "scheme") (dget p "port")
  let p :=
    match inferred.scheme with
    | some s => if isBlank (dget p "scheme") ∧ s ≠ "" then dset p "scheme" (.str s) else p
    | none => p
  let p := if isBlank (dget p "port") ∧ truthy inferred.port then dset p "port" inferred.port else p
  let p :=
    if isBlank (dget p "url") ∧ truthy (dget p "host") then
      let scheme := pyOr (dget p "scheme") (.str "https")
      let host := dget p "host"
      if truthy (dget p "port") ∧ pyStr (dget p "port") ≠ "80" ∧ pyStr (dget p "port") ≠ "443" then
        dset p "url" (.str (pyStr scheme ++ "://" ++ pyStr host ++ ":" ++ pyStr (dget p "port")))
      else dset p "url" (.str (pyStr scheme ++ "://" ++ pyStr host))
    else p
  let p :=
    if truthy (dget p "url") ∧ !strContains (pyStr (dget p "url")) "://" then
      let scheme := pyLower (pyStr (pyOr (dget p "scheme") (.str "https")))
      dset p "url" (.str (scheme ++ "://" ++ pyStr (dget p "url")))
    else p
  let p := defaultBlank p "request" (.str "-")
  let p := defaultBlank p "response" (.str "-")
  let p := defaultBlank p "method" (.str "GET")
  let allowedMethods := ["GET", "POST", "PUT", "PATCH", "DELETE", "OPTIONS", "HEAD",
    "TRACE", "CONNECT"]
  let p := if !allowedMethods.contains (pyUpper (pyStr (dget p "method")))
    then dset p "method" (.str "GET") else p
  let p := defaultBlank p "scheme" (.str "HTTPS")
  let p := defaultBlank p "port" (.int 443)
  Except.ok p

/-- The dispatcher-side WEB required list (tasks.py:1099). -/
def webRequired : List String :=
  ["assetId", "title", "description", "severity", "method", "scheme", "url", "port",
   "request", "response"]

/-- The NETWORK defaulting block (tasks.py:1111-1147). -/
def networkDefaults (q : PyDict) (record : PyDict) : Py PyDict := do
  let p := defaultBlank q "solution"
    (pyOr (dget q "description") (pyOr (dget q "title") (.str "See description")))
  let p := defaultBlank p "impactLevel" (.str "LOW")
  let p := defaultBlank p "probabilityLevel" (.str "LOW")
  let p := defaultBlank p "summary" (pyOr (dget p "title") (.str "-"))
  let p := defaultBlank p "impactDescription"
    (pyOr (dget p "description") (pyOr (dget p "title") (.str "-")))
  let p := defaultBlank p "stepsToReproduce"
    (pyOr (dget p "description") (pyOr (dget p "title") (.str "-")))
  let p :=
    if isBlank (dget p "address") then
      let fallback0 := pyOr (dget p "host") (dget p "ip")
      let fallback :=
        if truthy fallback0 then fallback0
        else if truthy (dget p "matchedAt") then .str (normalizeAssetKey (dget p "matchedAt"))
        else if truthy (dget p "url") then .str (normalizeAssetKey (dget p "url"))
        else fallback0
      dset p "address" fallback
    else p
  let p := if truthy (dget p "address")
    then dset p "address" (.str (normalizeAssetKey (dget p "address"))) else p
  let p ←
    if isBlank (dget p "protocol") then do
      let ftypeV ← match pyOr (dget record "finding") (.dict []) with
        | .dict kvs => Except.ok (dget kvs "type")
        | _ => Except.error ()
      let ftype := if truthy ftypeV then pyLower (pyStr ftypeV) else ""
      let rawReq ← match pyOr (dget record "raw") (.dict []) with
        | .dict kvs => Except.ok (dget kvs "request")
        | _ => Except.error ()
      let digLike := match rawReq with
        | .str s => pyStartsWith (pyLStrip s) ";;"
        | _ => false
      let proto :=
        if ftype = "dns" ∨ digLike = true then "UDP"
        else if ftype = "ssl" ∨ ftype = "tcp" then "TCP"
        else "TCP"
      Except.ok (dset p "protocol" (.str proto))
    else Except.ok p
  let p :=
    if isBlank (dget p "port") then
      dset p "port" (match dget p "protocol" with | .str "UDP" => .int 53 | _ => .int 443)
    else p
  let p := defaultBlank p "attackVector" (.str "N/A")
  Except.ok p

/-- The dispatcher-side NETWORK required list (tasks.py:1149). -/
def networkRequired : List String :=
  ["assetId", "title", "description", "severity", "address", "protocol", "port",
   "attackVector"]

/-- The fields of `required` still blank after defaulting (tasks.py:1100). -/
def missingFields (req : List String) (p : PyDict) : List String :=
  req.filter (fun r => isBlank (dget p r))

/-- The counts `_apply_actions` accumulates (tasks.py:872). -/
structure DispatchCounts where
  created : Nat := 0
  skipped : Nat := 0
  assetsCreated : Nat := 0
  assetsUpdated : Nat := 0
deriving Repr, DecidableEq

/-- The mutable state one entry threads: the shared run context (whose
`assets.by_name` cache the branch updates in place), the counts, and the
remote calls issued so far. -/
structure DispatchState where
  context : PyDict
  counts : DispatchCounts
  calls : List RemoteCall
deriving Repr

/-- One planned `vulns.create` entry (tasks.py:856-868). -/
structure ActionEntry where
  map : PyDict
  defaults : PyDict
  asset : PyDict
  record : PyDict

/-- tasks.py:1039-1042: convert an all-digit string assetId to an int. -/
def assetIdDigitNormalize (p : PyDict) : PyDict :=
  match dget p "assetId" with
  | .str s =>
      if pyIsDigit s then
        match pyParseNat s with
        | some n => dset p "assetId" (.int (n : Int))
        | none => p
      else p
  | _ => p

/-- tasks.py:1044-1045: default a blank description from the title. -/
def descriptionDefault (p : PyDict) : PyDict :=
  if isBlank (dget p "description") then dset p "description" (pyOr (dget p "title") (.str "-"))
  else p

/-- tasks.py:990-1015: the cache missed on both name forms — one remote
search by the normalized name, then (apply mode only) the remote asset
creation with its lookup fallback; in dry-run mode the asset id becomes the
`"dry-run"` placeholder with no creation call.  Returns the resolved asset
id with the updated counts and call log. -/
def vulnsCreateSearchOrCreate (env : RemoteEnv) (companyId : Int) (apply : Bool)
    (assetPayload : PyDict) (normalizedName : String) (st : DispatchState) :
    Py (Val × DispatchCounts × List RemoteCall) :=
  let (lookup, searchCalls) := findAssetCall env normalizedName
  let callsL := st.calls ++ searchCalls
  let lookupV : Val := match lookup with | some i => .int i | none => .null
  if truthy lookupV then .ok (lookupV, st.counts, callsL)
  else if apply then
    let filtered := upperExploitability (filterAssetPayload assetPayload)
    let (createdId, createCalls) := createAsset env companyId filtered true
    let callsC := callsL ++ createCalls
    let createdV : Val := match createdId with | some c => .int c | none => .null
    if truthy createdV then
      .ok (createdV, { st.counts with assetsCreated := st.counts.assetsCreated + 1 }, callsC)
    else
      let (lookup2, searchCalls2) := findAssetCall env normalizedName
      let callsC2 := callsC ++ searchCalls2
      let lookup2V : Val := match lookup2 with | some i => .int i | none => .null
      if truthy lookup2V then .ok (lookup2V, st.counts, callsC2)
      else .error ()
  else .ok (.str "dry-run", st.counts, callsL)

/-- tasks.py:966-1028: resolve the payload's assetId.  A blank assetId with
`create_if_missing` goes through the rendered asset map's name, the
`by_name` cache, then `vulnsCreateSearchOrCreate`, caching the result under
both name forms; without `create_if_missing` (or with no resolvable name)
the run aborts.  Returns the payload with assetId set plus the updated
context/counts/calls. -/
def vulnsCreateResolveAsset (env : RemoteEnv) (companyId : Int) (apply : Bool)
    (entry : ActionEntry) (st : DispatchState) (p0 : PyDict) :
    Py (PyDict × PyDict × DispatchCounts × List RemoteCall) :=
  if isBlank (dget p0 "assetId") then
    if truthy (dget entry.asset "create_if_missing") then
      match pyOr (dget entry.asset "map") (.dict []) with
      | .dict am =>
          let ap := am.foldl (fun acc kv => dset acc kv.1 (renderValue entry.record st.context kv.2)) []
          if truthy (dget ap "name") then
            match cacheRead st.context with
            | .error e => .error e
            | .ok ea =>
                match (if dmem ea (pyStr (dget ap "name")) then
                         Except.ok (dget ea (pyStr (dget ap "name")), st.counts, st.calls)
                       else if dmem ea (normalizeAssetKey (dget ap "name")) then
                         Except.ok (dget ea (normalizeAssetKey (dget ap "name")), st.counts, st.calls)
                       else vulnsCreateSearchOrCreate env companyId apply ap
                         (normalizeAssetKey (dget ap "name")) st) with
                | .error e => .error e
                | .ok (assetIdV, countsA, callsA) =>
                    match cacheWrite st.context (pyStr (dget ap "name")) assetIdV with
                    | .error e => .error e
                    | .ok c1 =>
                        match cacheWrite c1 (normalizeAssetKey (dget ap "name")) assetIdV with
                        | .error e => .error e
                        | .ok c2 => .ok (dset p0 "assetId" assetIdV, c2, countsA, callsA)
          else .error ()
      | _ => .error ()
    else .error ()
  else .ok (p0, st.context, st.counts, st.calls)

/-- The `vulns.create` branch of `_apply_actions` (tasks.py:956-1163),
including the shared payload rendering of tasks.py:881-887, for one planned
entry.  `Except.error` models `typer.Exit` (unresolvable asset identity) or
an uncaught exception — both abort the whole run.  The second result
component observes the local `payload` as handed to `_create_vulnerability`
(`none` when the required-field check skipped the finding). -/
def applyVulnsCreateEntry (env : RemoteEnv) (companyId : Int) (apply : Bool)
    (entry : ActionEntry) (st : DispatchState) : Py (DispatchState × Option PyDict) :=
  match vulnsCreateResolveAsset env companyId apply entry st
      (normalizeSeverity (renderActionPayload entry.defaults entry.map entry.record st.context)) with
  | .error e => .error e
  | .ok (p1, context1, counts1, calls1) =>
      if isBlank (dget p1 "assetId") then .error ()
      else
        match classifyVulnType (descriptionDefault (assetIdDigitNormalize p1)) entry.record with
        | .error e => .error e
        | .ok vt0 =>
            if (if vt0 = "DAST" then "WEB" else vt0) = "WEB" then
              match webDefaults (dset (descriptionDefault (assetIdDigitNormalize p1))
                  "type" (.str (if vt0 = "DAST" then "WEB" else vt0))) with
              | .error e => .error e
              | .ok p5 =>
                  if missingFields webRequired p5 ≠ [] then
                    .ok (⟨context1, { counts1 with skipped := counts1.skipped + 1 }, calls1⟩, none)
                  else
                    match createVulnerability (dset p5 "companyId" (.int companyId)) apply with
                    | .error e => .error e
                    | .ok callsV =>
                        .ok (⟨context1, { counts1 with created := counts1.created + 1 },
                          calls1 ++ callsV⟩, some (dset p5 "companyId" (.int companyId)))
            else if (if vt0 = "DAST" then "WEB" else vt0) = "NETWORK" then
              match networkDefaults (dset (descriptionDefault (assetIdDigitNormalize p1))
                  "type" (.str (if vt0 = "DAST" then "WEB" else vt0))) entry.record with
              | .error e => .error e
              | .ok p5 =>
                  if missingFields networkRequired p5 ≠ [] then
                    .ok (⟨context1, { counts1 with skipped := counts1.skipped + 1 }, calls1⟩, none)
                  else
                    match createVulnerability (dset p5 "companyId" (.int companyId)) apply with
                    | .error e => .error e
                    | .ok callsV =>
                        .ok (⟨context1, { counts1 with created := counts1.created + 1 },
                          calls1 ++ callsV⟩, some (dset p5 "companyId" (.int companyId)))
            else
              match createVulnerability (dset (dset (descriptionDefault (assetIdDigitNormalize p1))
                  "type" (.str (if vt0 = "DAST" then "WEB" else vt0)))
                  "companyId" (.int companyId)) apply with
              | .error e => .error e
              | .ok callsV =>
                  .ok (⟨context1, { counts1 with created := counts1.created + 1 },
                    calls1 ++ callsV⟩, some (dset (dset (descriptionDefault (assetIdDigitNormalize p1))
                      "type" (.str (if vt0 = "DAST" then "WEB" else vt0)))
                      "companyId" (.int companyId)))

/-- The scan-json-lines record of end-to-end scenario 1, as decoded by
`json.loads`. -/
def scenario1Raw : Val := .dict [("finding", .dict [
  ("title", .str "Open port"), ("severity", .str "HIGH"), ("address", .str "10.0.0.5"),
  ("protocol", .str "tcp"), ("port", .int 22), ("attackVector", .str "N/A")])]

/-- The `\x7bfinding, raw\x7d` record the scan parser emits for it (the
back-fill adds `name` and the shared sub-dict shows up in `raw` too). -/
def scenario1Record : PyDict := [
  ("finding", .dict [("title", .str "Open port"), ("severity", .str "HIGH"),
    ("address", .str "10.0.0.5"), ("protocol", .str "tcp"), ("port", .int 22),
    ("attackVector", .str "N/A"), ("name", .str "Open port")]),
  ("raw", .dict [("finding", .dict [("title", .str "Open port"), ("severity", .str "HIGH"),
    ("address", .str "10.0.0.5"), ("protocol", .str "tcp"), ("port", .int 22),
    ("attackVector", .str "N/A"), ("name", .str "Open port")])])]

/-- A `vulns.create` action whose map carries the scenario record's fields
and a resolved assetId, with no explicit type/vtype. -/
def scenario1Entry : ActionEntry := {
  map := [("assetId", .str "123"),
    ("title", .str "$\x7bfinding.title\x7d"), ("severity", .str "$\x7bfinding.severity\x7d"),
    ("address", .str "$\x7bfinding.address\x7d"), ("protocol", .str "$\x7bfinding.protocol\x7d"),
    ("port", .str "$\x7bfinding.port\x7d"), ("attackVector", .str "$\x7bfinding.attackVector\x7d")],
  defaults := [], asset := [], record := scenario1Record }

/-- A remote catalog with no matching assets. -/
def scenario1Env : RemoteEnv := ⟨fun _ => none, fun _ => none⟩

def scenario1Context : PyDict := [("assets", .dict [("by_name", .dict [])])]

/-- A parsed finding for the C5 dry-run scenario: a tcp-type record whose
host names an asset unknown to both the cache and the remote catalog. -/
def c5Record : PyDict := [
  ("finding", .dict [("name", .str "Weak TLS"), ("severity", .str "HIGH"),
    ("type", .str "tcp"), ("host", .str "db.example.com")]),
  ("raw", .dict [])]

/-- A `vulns.create` action with `asset.create_if_missing` and a name map,
and no assetId in its own map. -/
def c5Entry : ActionEntry := {
  map := [("title", .str "$\x7bfinding.name\x7d"), ("severity", .str "$\x7bfinding.severity\x7d"),
    ("host", .str "$\x7bfinding.host\x7d")],
  defaults := [],
  asset := [("create_if_missing", .bool true),
    ("map", .dict [("name", .str "$\x7bfinding.host\x7d")])],
  record := c5Record }

/-- A remote catalog that knows no assets. -/
def c5Env : RemoteEnv := ⟨fun _ => none, fun _ => none⟩

def c5St : DispatchState := ⟨[("assets", .dict [("by_name", .dict [])])], ⟨0, 0, 0, 0⟩, []⟩

/-- The rendered (and severity-normalized) payload of `c5Entry`. -/
def c5P0 : PyDict := [("title", .str "Weak TLS"), ("severity", .str "HIGH"),
  ("host", .str "db.example.com")]

/-- The run context after the dry-run placeholder is cached (both name
forms coincide here). -/
def c5C2 : PyDict := [("assets", .dict [("by_name", .dict [("db.example.com", .str "dry-run")])])]

/-- The item the nuclei parser emits for the line
`{"url": "https://e.com/"}` (concrete input of the C8 witness). -/
def c8WitnessItem : Val := .dict [("finding", .dict [
  ("name", .null), ("description", .null), ("severity", .null), ("type", .null),
  ("templateId", .null), ("matcherName", .null), ("host", .null), ("matchedAt", .null),
  ("ip", .null), ("url", .str "https://e.com/"), ("scheme", .str "https"),
  ("port", .int 443), ("method", .null), ("request", .null), ("response", .null),
  ("solution", .null), ("reference", .null), ("timestamp", .null)]),
  ("raw", .dict [("url", .str "https://e.com/")])]

/-! ## Helper lemmas -/

theorem dget_dset_self (p : PyDict) (k : String) (v : Val) : dget (dset p k v) k = v := by
  induction p with
  | nil => simp [dset, dget, dget?]
  | cons kv rest ih =>
      obtain ⟨a, b⟩ := kv
      by_cases h : a = k
      · simp [dset, h, dget, dget?]
      · simp only [dset, if_neg h]
        simpa [dget, dget?, if_neg h] using ih

theorem dset_cons_ne (a k : String) (b v : Val) (rest : PyDict) (h : a ≠ k) :
    dset ((a, b) :: rest) k v = (a, b) :: dset rest k v := by
  simp [dset, h]

theorem dget_dset_ne (p : PyDict) (k k' : String) (v : Val) (h : k ≠ k') :
    dget (dset p k v) k' = dget p k' := by
  induction p with
  | nil => simp [dset, dget, dget?, if_neg h]
  | cons kv rest ih =>
      obtain ⟨a, b⟩ := kv
      by_cases ha : a = k
      · subst ha
        simp [dset, dget, dget?, if_neg h]
      · rw [dset_cons_ne a k b v rest ha]
        by_cases ha' : a = k'
        · simp [dget, dget?, ha']
        · simpa [dget, dget?, if_neg ha'] using ih

theorem storeGet_storeSet_self (st : ApprovalStore) (k : String) (r : ApprovalRecord) :
    storeGet (storeSet st k r) k = some r := by
  induction st with
  | nil => simp [storeSet, storeGet]
  | cons kv rest ih =>
      obtain ⟨a, b⟩ := kv
      by_cases h : a = k
      · simp [storeSet, h, storeGet]
      · simp only [storeSet, if_neg h]
        simpa [storeGet, if_neg h] using ih

theorem storeGet_storeSet_ne (st : ApprovalStore) (k k' : String) (r : ApprovalRecord)
    (h : k ≠ k') : storeGet (storeSet st k r) k' = storeGet st k' := by
  induction st with
  | nil => simp [storeSet, storeGet, if_neg h]
  | cons kv rest ih =>
      obtain ⟨a, b⟩ := kv
      by_cases ha : a = k
      · subst ha
        simp [storeSet, storeGet, if_neg h]
      · simp only [storeSet, if_neg ha]
        by_cases ha' : a = k'
        · simp [storeGet, ha']
        · simpa [storeGet, if_neg ha'] using ih

theorem storeMem_storeSet_self (st : ApprovalStore) (k : String) (r : ApprovalRecord) :
    storeMem (storeSet st k r) k = true := by
  simp [storeMem, storeGet_storeSet_self]

theorem storeMem_storeSet_ne (st : ApprovalStore) (k k' : String) (r : ApprovalRecord)
    (h : k ≠ k') : storeMem (storeSet st k r) k' = storeMem st k' := by
  simp [storeMem, storeGet_storeSet_ne st k k' r h]

theorem storeCountKey_eq_zero (st : ApprovalStore) (k : String)
    (h : k ∉ st.map Prod.fst) : storeCountKey st k = 0 := by
  induction st with
  | nil => simp [storeCountKey]
  | cons kv rest ih =>
      obtain ⟨a, b⟩ := kv
      rw [List.map_cons, List.mem_cons] at h
      push_neg at h
      simp [storeCountKey, if_neg (Ne.symm h.1), ih h.2]

theorem storeSet_keys_subset (st : ApprovalStore) (k : String) (r : ApprovalRecord) :
    ∀ x, x ∈ (storeSet st k r).map Prod.fst → x = k ∨ x ∈ st.map Prod.fst := by
  induction st with
  | nil => intro x hx; simp [storeSet] at hx; exact Or.inl hx
  | cons kv rest ih =>
      obtain ⟨a, b⟩ := kv
      intro x hx
      by_cases ha : a = k
      · subst ha
        simp [storeSet] at hx
        rcases hx with h1 | h2
        · exact Or.inl h1
        · exact Or.inr (by simp [h2])
      · simp only [storeSet, if_neg ha, List.map_cons, List.mem_cons] at hx
        rcases hx with h1 | h2
        · exact Or.inr (by simp [h1])
        · rcases ih x h2 with h3 | h4
          · exact Or.inl h3
          · exact Or.inr (by simp [h4])

theorem storeSet_keys_nodup (st : ApprovalStore) (k : String) (r : ApprovalRecord)
    (h : (st.map Prod.fst).Nodup) : ((storeSet st k r).map Prod.fst).Nodup := by
  induction st with
  | nil => simp [storeSet]
  | cons kv rest ih =>
      obtain ⟨a, b⟩ := kv
      rw [List.map_cons, List.nodup_cons] at h
      by_cases ha : a = k
      · subst ha
        have hset : storeSet ((a, b) :: rest) a r = (a, r) :: rest := by simp [storeSet]
        rw [hset, List.map_cons, List.nodup_cons]
        exact h
      · simp only [storeSet, if_neg ha]
        rw [List.map_cons, List.nodup_cons]
        refine ⟨fun hmem => ?_, ih h.2⟩
        rcases storeSet_keys_subset rest k r a hmem with h1 | h2
        · exact ha h1
        · exact h.1 h2

theorem storeCountKey_storeSet (st : ApprovalStore) (k : String) (r : ApprovalRecord)
    (h : (st.map Prod.fst).Nodup) : storeCountKey (storeSet st k r) k = 1 := by
  induction st with
  | nil => simp [storeSet, storeCountKey]
  | cons kv rest ih =>
      obtain ⟨a, b⟩ := kv
      rw [List.map_cons, List.nodup_cons] at h
      by_cases ha : a = k
      · subst ha
        have hz : storeCountKey rest a = 0 := storeCountKey_eq_zero rest a h.1
        simp [storeSet, storeCountKey, hz]
      · simp only [storeSet, if_neg ha]
        simp [storeCountKey, if_neg ha, ih h.2]

theorem filterMap_ite {α β : Type} (p : α → Bool) (g : α → β) (l : List α) :
    l.filterMap (fun a => if p a then some (g a) else none) = (l.filter p).map g := by
  induction l with
  | nil => rfl
  | cons x xs ih =>
      by_cases h : p x
      · simp [List.filterMap_cons, List.filter_cons, h, ih]
      · simp [List.filterMap_cons, List.filter_cons, h, ih]

/-! ## Claim theorems -/

/-- C10: the nmap-xml parser emits exactly one finding per `host` element
that either has no `status` child at all (treated as up) or whose `status`
child's `state` attribute equals "up", and emits no finding for any other
host: the output is exactly the per-host records of the hosts passing that
predicate, in document order. -/
theorem claimC10_nmap_up_hosts (root : XmlElem) :
    parseNmapXml root =
      ((xfindall root "host").filter (fun h =>
        match xfind h "status" with
        | none => true
        | some st => xattr st "state" == some "up")).map nmapHostRecord := by
  have hchar : nmapHostFinding = fun hst =>
      if (match xfind hst "status" with
          | none => true
          | some st => xattr st "state" == some "up") then some (nmapHostRecord hst)
      else none := by
    funext hst
    unfold nmapHostFinding
    cases hs : xfind hst "status" with
    | none => simp
    | some st =>
        by_cases hup : xattr st "state" = some "up"
        · simp [hup]
        · simp [hup]
  unfold parseNmapXml
  rw [hchar, filterMap_ite]

/-- C9: after `approve(cmd)`, `isApproved(cmd)` holds; approving the same
command twice leaves exactly one record under its key (the latest one), and
a command whose key (SHA-256 digest, modelled by `hashFn`) differs is an
unrelated entry: approving `cmd` does not disturb it. -/
theorem claimC9_approve_isApproved_no_duplicate (hashFn : String → String)
    (st : ApprovalStore) (cmd cmd' : String) (t t' : Int) :
    isCommandApproved hashFn (approveCommand hashFn st cmd t) cmd = true
    ∧ ((st.map Prod.fst).Nodup →
        storeCountKey (approveCommand hashFn (approveCommand hashFn st cmd t) cmd t')
          (commandKey hashFn cmd) = 1
        ∧ storeGet (approveCommand hashFn (approveCommand hashFn st cmd t) cmd t')
            (commandKey hashFn cmd) = some ⟨cmd, t'⟩)
    ∧ (hashFn cmd ≠ hashFn cmd' →
        isCommandApproved hashFn (approveCommand hashFn st cmd t) cmd'
          = isCommandApproved hashFn st cmd'
        ∧ storeGet (approveCommand hashFn st cmd t) (commandKey hashFn cmd')
            = storeGet st (commandKey hashFn cmd')) := by
  refine ⟨?_, fun hnd => ⟨?_, ?_⟩, fun hne => ⟨?_, ?_⟩⟩
  · simpa [isCommandApproved, commandKey, approveCommand] using
      storeMem_storeSet_self st (hashFn cmd) ⟨cmd, t⟩
  · exact storeCountKey_storeSet _ _ _ (storeSet_keys_nodup st _ _ hnd)
  · exact storeGet_storeSet_self _ _ _
  · simpa [isCommandApproved, commandKey, approveCommand] using
      storeMem_storeSet_ne st (hashFn cmd) (hashFn cmd') ⟨cmd, t⟩ hne
  · exact storeGet_storeSet_ne st (hashFn cmd) (hashFn cmd') ⟨cmd, t⟩ hne

theorem claimC9_witness :
    (([] : ApprovalStore).map Prod.fst).Nodup
    ∧ ("echo a" : String) ≠ "echo b"
    ∧ isCommandApproved (fun s => s) (approveCommand (fun s => s) [] "echo a" 5) "echo a" = true
    ∧ storeCountKey (approveCommand (fun s => s)
        (approveCommand (fun s => s) [] "echo a" 5) "echo a" 7) "echo a" = 1
    ∧ storeGet (approveCommand (fun s => s) [] "echo a" 5) "echo b" = none := by
  refine ⟨by simp, by decide, ?_, ?_, ?_⟩
  · exact (claimC9_approve_isApproved_no_duplicate (fun s => s) [] "echo a" "echo b" 5 7).1
  · exact ((claimC9_approve_isApproved_no_duplicate (fun s => s) [] "echo a" "echo b" 5 7).2.1
      (by simp)).1
  · have h2 := ((claimC9_approve_isApproved_no_duplicate (fun s => s) [] "echo a" "echo b" 5 7).2.2
      (by decide)).2
    simp only [commandKey] at h2
    rw [h2]
    rfl

/-- C6: with auto-approve disabled, a command whose hash is not in the
approval store and that the user declines takes the gate's `skipStep`
branch: the store is unchanged, no command is handed to `subprocess.run`,
and the `continue` reaches neither the non-zero-exit failure path nor the
step-executed accounting. -/
theorem claimC6_declined_command_not_run (hashFn : String → String) (st : ApprovalStore)
    (cmd : String) (now : Int)
    (h : isCommandApproved hashFn st cmd = false) :
    approvalGate hashFn st cmd false false now = .skipStep st
    ∧ gateAndRun hashFn st cmd false false now = (st, []) := by
  constructor
  · simp [approvalGate, h]
  · simp [gateAndRun, approvalGate, h]

theorem inferSchemePort_default (url scheme : Val) (sp : SchemePort)
    (hup : urlPortUpdateFull url .null = .null)
    (hok : inferSchemePort url scheme .null = .ok sp) :
    (sp.scheme = some "https" → sp.port = .int 443)
    ∧ (sp.scheme = some "http" → sp.port = .int 80) := by
  unfold inferSchemePort at hok
  cases hs0 : lowerOrEmpty scheme with
  | error e => rw [hs0] at hok; cases hok
  | ok s0 =>
      rw [hs0] at hok
      simp only [Bind.bind, Except.bind, pure, Except.pure, hup] at hok
      cases hok
      constructor
      · intro hs
        simp only at hs
        simp [hs, isBlank]
      · intro hs
        simp only at hs
        simp [hs, isBlank]

/-- C8 (amended): for a decoded nuclei-json-lines object with no `port`
field *and whose URL contributes no explicit port*, the emitted finding's
port defaults to 443 when the resolved scheme is "https" and to 80 when it
is "http".  (The claim as frozen omits the URL condition; see the
counterexample.) -/
theorem claimC8_amended_nuclei_default_ports (rawD : PyDict) (v : Val)
    (hnoport : dget rawD "port" = .null)
    (hnourlport : urlPortUpdateFull (pyOr (dget rawD "url") (dget rawD "matched-at")) .null = .null)
    (hok : processNucleiEntry (.dict rawD) = .ok v) :
    (vget (vget v "finding") "scheme" = .str "https" → vget (vget v "finding") "port" = .int 443)
    ∧ (vget (vget v "finding") "scheme" = .str "http" → vget (vget v "finding") "port" = .int 80) := by
  have hok2 : processNucleiObject (Val.dict rawD) rawD = Except.ok v := hok
  unfold processNucleiObject at hok2
  rw [hnoport] at hok2
  split at hok2
  all_goals try exact Except.noConfusion hok2
  split at hok2
  all_goals try exact Except.noConfusion hok2
  split at hok2
  all_goals try exact Except.noConfusion hok2
  rename_i inferred hinf
  split at hok2
  all_goals try exact Except.noConfusion hok2
  have hcore := inferSchemePort_default _ _ _ hnourlport hinf
  cases hok2
  constructor
  · intro hs
    have hsp : inferred.scheme = some "https" := by
      cases hsc : inferred.scheme with
      | none => rw [hsc] at hs; simp [vget, dget, dget?] at hs
      | some s =>
          rw [hsc] at hs
          simp [vget, dget, dget?] at hs
          rw [hs]
    simp [vget, dget, dget?, hcore.1 hsp]
  · intro hs
    have hsp : inferred.scheme = some "http" := by
      cases hsc : inferred.scheme with
      | none => rw [hsc] at hs; simp [vget, dget, dget?] at hs
      | some s =>
          rw [hsc] at hs
          simp [vget, dget, dget?] at hs
          rw [hs]
    simp [vget, dget, dget?, hcore.2 hsp]

theorem validatorSteps_eq_some (normalize : String → String) (load : String → Py Val)
    (cleaned : String) (v : Val) :
    validatorSteps normalize load cleaned = some v ↔
      ∃ kvs, validatorData1 normalize load cleaned = .dict kvs
        ∧ (validatorStage2 normalize load cleaned kvs).2 = v := by
  unfold validatorSteps
  cases hd0 : validatorData1 normalize load cleaned <;> simp

theorem validateTaskYaml_compute (clean normalize : String → String) (load : String → Py Val)
    (desc : String) (kvs : PyDict) (dataF sF : Val)
    (hne : ¬ clean desc = "")
    (hd : validatorData1 normalize load (clean desc) = .dict kvs)
    (hst : validatorStage2 normalize load (clean desc) kvs = (dataF, sF)) :
    validateTaskYaml clean normalize load desc =
      match sF with
      | .list xs =>
          if xs.length ≠ 1 then ⟨false, "steps=" ++ toString xs.length, .null, none⟩
          else ⟨true, "", pyOr (vget dataF "name") (.str ""), some xs.length⟩
      | _ => ⟨false, "missing_steps", .null, none⟩ := by
  simp only [validateTaskYaml, if_neg hne, hd, hst]
  cases sF <;> rfl

/-- C3: whenever the steps value the validator resolves (directly, or after
the single normalization retry, as `validatorSteps` captures) is a list of
length n with n ≠ 1 — including n = 0 — validation returns ok=false with
the reason string "steps=n" reflecting the actual count; and ok=true is
returned only when exactly one step parses. -/
theorem claimC3_validator_rejects_step_counts (clean normalize : String → String)
    (load : String → Py Val) (desc : String) :
    (∀ xs : List Val, clean desc ≠ "" →
      validatorSteps normalize load (clean desc) = some (.list xs) → xs.length ≠ 1 →
      validateTaskYaml clean normalize load desc
        = ⟨false, "steps=" ++ toString xs.length, .null, none⟩)
    ∧ ((validateTaskYaml clean normalize load desc).ok = true →
        ∃ xs : List Val, validatorSteps normalize load (clean desc) = some (.list xs)
          ∧ xs.length = 1
          ∧ (validateTaskYaml clean normalize load desc).steps = some 1) := by
  constructor
  · intro xs hne hsteps hn
    obtain ⟨kvs, hd, hs2⟩ := (validatorSteps_eq_some normalize load (clean desc) _).1 hsteps
    rcases hstp : validatorStage2 normalize load (clean desc) kvs with ⟨dataF, sF⟩
    rw [hstp] at hs2
    simp only at hs2
    subst hs2
    rw [validateTaskYaml_compute clean normalize load desc kvs dataF _ hne hd hstp]
    simp [hn]
  · intro hok
    by_cases hne : clean desc = ""
    · rw [validateTaskYaml] at hok
      simp [hne] at hok
    · cases hd : validatorData1 normalize load (clean desc) with
      | dict kvs =>
          rcases hstp : validatorStage2 normalize load (clean desc) kvs with ⟨dataF, sF⟩
          have hcomp := validateTaskYaml_compute clean normalize load desc kvs dataF sF hne hd hstp
          rw [hcomp] at hok
          cases sF with
          | list xs =>
              by_cases hn : xs.length = 1
              · refine ⟨xs, ?_, hn, ?_⟩
                · exact (validatorSteps_eq_some normalize load (clean desc) _).2
                    ⟨kvs, hd, by rw [hstp]⟩
                · rw [hcomp]
                  simp [hn]
              · simp [hn] at hok
          | null => simp at hok
          | bool b => simp at hok
          | int n => simp at hok
          | str s => simp at hok
          | dict kvs2 => simp at hok
      | null => rw [validateTaskYaml] at hok; simp [hne, hd] at hok
      | bool b => rw [validateTaskYaml] at hok; simp [hne, hd] at hok
      | int n => rw [validateTaskYaml] at hok; simp [hne, hd] at hok
      | str s => rw [validateTaskYaml] at hok; simp [hne, hd] at hok
      | list xs => rw [validateTaskYaml] at hok; simp [hne, hd] at hok

theorem claimC3_witness :
    ((fun s : String => s) "steps:" ≠ "")
    ∧ validatorSteps (fun s => s)
        (fun s => if s = "steps:" then Except.ok (.dict [("steps", .list [.dict [], .dict []])])
                  else Except.error ()) "steps:" = some (.list [.dict [], .dict []])
    ∧ validateTaskYaml (fun s => s) (fun s => s)
        (fun s => if s = "steps:" then Except.ok (.dict [("steps", .list [.dict [], .dict []])])
                  else Except.error ()) "steps:"
        = ⟨false, "steps=2", .null, none⟩ := by
  refine ⟨by decide, rfl, ?_⟩
  exact (claimC3_validator_rejects_step_counts (fun s => s) (fun s => s)
      (fun s => if s = "steps:" then Except.ok (.dict [("steps", .list [.dict [], .dict []])])
                else Except.error ()) "steps:").1
    [.dict [], .dict []] (by decide) rfl (by decide)

/-- C4: during a run, an activity whose cleaned description is empty, whose
YAML load raises, which is not a mapping or lacks a `steps` key, or whose
steps value is empty/not a list, is skipped (`continue`, run moves on);
but a steps list with two or more entries aborts the whole run
(`typer.Exit`) — an outcome reached before the step's command is rendered,
gated or executed, which only happens on `proceed`; and `proceed` implies
the steps list had exactly one entry. -/
theorem claimC4_invalid_recipe_skip_multi_step_abort (clean normalize : String → String)
    (load : String → Py Val) (desc : String) :
    (clean desc = "" → runTaskActivityOutcome clean normalize load desc = .skip "empty_description")
    ∧ (clean desc ≠ "" → runTaskLoadedDef normalize load (clean desc) = .error () →
        runTaskActivityOutcome clean normalize load desc = .skip "invalid_yaml")
    ∧ (∀ v, clean desc ≠ "" → runTaskLoadedDef normalize load (clean desc) = .ok v →
        (∀ kvs, v = .dict kvs → dmem kvs "steps" = false) →
        runTaskActivityOutcome clean normalize load desc = .skip "missing_steps")
    ∧ (∀ kvs, clean desc ≠ "" → runTaskLoadedDef normalize load (clean desc) = .ok (.dict kvs) →
        dmem kvs "steps" = true →
        (match pyOr (dget kvs "steps") (.list []) with
         | .list xs => xs.isEmpty
         | _ => true) = true →
        runTaskActivityOutcome clean normalize load desc = .skip "empty_steps")
    ∧ (∀ kvs xs, clean desc ≠ "" → runTaskLoadedDef normalize load (clean desc) = .ok (.dict kvs) →
        dmem kvs "steps" = true →
        pyOr (dget kvs "steps") (.list []) = .list xs → 2 ≤ xs.length →
        runTaskActivityOutcome clean normalize load desc = .abort)
    ∧ (∀ step, runTaskActivityOutcome clean normalize load desc = .proceed step →
        ∃ kvs xs, runTaskLoadedDef normalize load (clean desc) = .ok (.dict kvs)
          ∧ pyOr (dget kvs "steps") (.list []) = .list xs ∧ xs.length = 1) := by
  refine ⟨fun he => ?_, fun hne herr => ?_, fun v hne hok hnd => ?_, fun kvs hne hok hmem hes => ?_,
    fun kvs xs hne hok hmem hlist hlen => ?_, fun step hp => ?_⟩
  · simp [runTaskActivityOutcome, he]
  · simp [runTaskActivityOutcome, hne, herr]
  · cases v with
    | dict kvs => simp [runTaskActivityOutcome, hne, hok, hnd kvs rfl]
    | null => simp [runTaskActivityOutcome, hne, hok]
    | bool b => simp [runTaskActivityOutcome, hne, hok]
    | int n => simp [runTaskActivityOutcome, hne, hok]
    | str s => simp [runTaskActivityOutcome, hne, hok]
    | list xs => simp [runTaskActivityOutcome, hne, hok]
  · cases hsv : pyOr (dget kvs "steps") (.list []) with
    | list xs =>
        rw [hsv] at hes
        simp only at hes
        simp [runTaskActivityOutcome, hne, hok, hmem, hsv, hes]
    | null => simp [runTaskActivityOutcome, hne, hok, hmem, hsv]
    | bool b => simp [runTaskActivityOutcome, hne, hok, hmem, hsv]
    | int n => simp [runTaskActivityOutcome, hne, hok, hmem, hsv]
    | str s => simp [runTaskActivityOutcome, hne, hok, hmem, hsv]
    | dict kvs2 => simp [runTaskActivityOutcome, hne, hok, hmem, hsv]
  · have hnonempty : xs.isEmpty = false := by
      cases xs with
      | nil => simp at hlen
      | cons a as => rfl
    have hne1 : xs.length ≠ 1 := by omega
    simp [runTaskActivityOutcome, hne, hok, hmem, hlist, hnonempty, hne1]
  · by_cases hne : clean desc = ""
    · simp [runTaskActivityOutcome, hne] at hp
    · cases hld : runTaskLoadedDef normalize load (clean desc) with
      | error e => simp [runTaskActivityOutcome, hne, hld] at hp
      | ok v =>
          cases v with
          | dict kvs =>
              by_cases hmem : dmem kvs "steps" = true
              · cases hsv : pyOr (dget kvs "steps") (.list []) with
                | list xs =>
                    by_cases hemp : xs.isEmpty = true
                    · simp [runTaskActivityOutcome, hne, hld, hmem, hsv, hemp] at hp
                    · by_cases hlen : xs.length = 1
                      · exact ⟨kvs, xs, by rw [← hld], hsv, hlen⟩
                      · simp [runTaskActivityOutcome, hne, hld, hmem, hsv, hemp, hlen] at hp
                | null => simp [runTaskActivityOutcome, hne, hld, hmem, hsv] at hp
                | bool b => simp [runTaskActivityOutcome, hne, hld, hmem, hsv] at hp
                | int n => simp [runTaskActivityOutcome, hne, hld, hmem, hsv] at hp
                | str s => simp [runTaskActivityOutcome, hne, hld, hmem, hsv] at hp
                | dict kvs2 => simp [runTaskActivityOutcome, hne, hld, hmem, hsv] at hp
              · simp [runTaskActivityOutcome, hne, hld, hmem] at hp
          | null => simp [runTaskActivityOutcome, hne, hld] at hp
          | bool b => simp [runTaskActivityOutcome, hne, hld] at hp
          | int n => simp [runTaskActivityOutcome, hne, hld] at hp
          | str s => simp [runTaskActivityOutcome, hne, hld] at hp
          | list xs => simp [runTaskActivityOutcome, hne, hld] at hp

theorem claimC4_witness :
    ((fun s : String => s) "steps:" ≠ "")
    ∧ runTaskLoadedDef (fun s => s)
        (fun s => if s = "steps:" then Except.ok (.dict [("steps", .list [.dict [], .dict []])])
                  else Except.error ()) "steps:"
        = Except.ok (.dict [("steps", .list [.dict [], .dict []])])
    ∧ runTaskActivityOutcome (fun s => s) (fun s => s)
        (fun s => if s = "steps:" then Except.ok (.dict [("steps", .list [.dict [], .dict []])])
                  else Except.error ()) "steps:" = .abort
    ∧ runTaskActivityOutcome (fun s => s) (fun s => s)
        (fun _ => Except.error ()) "bad: :" = .skip "invalid_yaml" := by
  refine ⟨by decide, rfl, ?_, ?_⟩
  · exact (claimC4_invalid_recipe_skip_multi_step_abort (fun s => s) (fun s => s)
      (fun s => if s = "steps:" then Except.ok (.dict [("steps", .list [.dict [], .dict []])])
                else Except.error ()) "steps:").2.2.2.2.1
      [("steps", .list [.dict [], .dict []])] [.dict [], .dict []]
      (by decide) rfl rfl rfl (by decide)
  · exact (claimC4_invalid_recipe_skip_multi_step_abort (fun s => s) (fun s => s)
      (fun _ => Except.error ()) "bad: :").2.1 (by decide) rfl

theorem dget_descriptionDefault_assetId (p : PyDict) :
    dget (descriptionDefault p) "assetId" = dget p "assetId" := by
  unfold descriptionDefault
  split
  · exact dget_dset_ne p "description" "assetId" _ (by decide)
  · rfl

/-- C5: a dry-run `vulns.create` entry with a blank rendered assetId,
`create_if_missing`, a resolvable asset name that misses both the `by_name`
cache and the remote search, (1) issues no remote create-asset mutation —
the only remote call added is the one name search, (2) still sets the
payload's assetId to the `"dry-run"` placeholder (also cached under both
name forms), and (3) still counts the vulnerability as created rather than
skipped, provided the classified subtype's required fields are met after
defaulting. -/
theorem claimC5_dryrun_counts_created_no_asset_mutation
    (env : RemoteEnv) (companyId : Int) (entry : ActionEntry) (st : DispatchState)
    (p0 am ap ea c1 c2 : PyDict) (vt0 : String)
    (hp0 : normalizeSeverity (renderActionPayload entry.defaults entry.map entry.record
      st.context) = p0)
    (hblank : isBlank (dget p0 "assetId") = true)
    (hcim : truthy (dget entry.asset "create_if_missing") = true)
    (hmap : pyOr (dget entry.asset "map") (.dict []) = .dict am)
    (hap : am.foldl (fun acc kv => dset acc kv.1 (renderValue entry.record st.context kv.2)) []
      = ap)
    (hname : truthy (dget ap "name") = true)
    (hea : cacheRead st.context = .ok ea)
    (hmiss1 : dmem ea (pyStr (dget ap "name")) = false)
    (hmiss2 : dmem ea (normalizeAssetKey (dget ap "name")) = false)
    (hnrm : ¬ normalizeAssetKey (dget ap "name") = "")
    (hfind : env.findAssetByName (normalizeAssetKey (dget ap "name")) = none)
    (hw1 : cacheWrite st.context (pyStr (dget ap "name")) (.str "dry-run") = .ok c1)
    (hw2 : cacheWrite c1 (normalizeAssetKey (dget ap "name")) (.str "dry-run") = .ok c2)
    (hclass : classifyVulnType (descriptionDefault (assetIdDigitNormalize
        (dset p0 "assetId" (.str "dry-run")))) entry.record = .ok vt0)
    (hweb : (if vt0 = "DAST" then "WEB" else vt0) = "WEB" →
        ∃ p5, webDefaults (dset (descriptionDefault (assetIdDigitNormalize
            (dset p0 "assetId" (.str "dry-run")))) "type"
            (.str (if vt0 = "DAST" then "WEB" else vt0))) = .ok p5
          ∧ missingFields webRequired p5 = [])
    (hnet : (if vt0 = "DAST" then "WEB" else vt0) = "NETWORK" →
        ∃ p5, networkDefaults (dset (descriptionDefault (assetIdDigitNormalize
            (dset p0 "assetId" (.str "dry-run")))) "type"
            (.str (if vt0 = "DAST" then "WEB" else vt0))) entry.record = .ok p5
          ∧ missingFields networkRequired p5 = []) :
    (∃ pFinal, applyVulnsCreateEntry env companyId false entry st
        = .ok (⟨c2, { st.counts with created := st.counts.created + 1 },
            st.calls ++ [.searchAsset (normalizeAssetKey (dget ap "name"))]⟩, some pFinal))
    ∧ dget (dset (descriptionDefault (assetIdDigitNormalize (dset p0 "assetId" (.str "dry-run"))))
        "type" (.str (if vt0 = "DAST" then "WEB" else vt0))) "assetId" = .str "dry-run" := by
  have hsoc : vulnsCreateSearchOrCreate env companyId false ap
      (normalizeAssetKey (dget ap "name")) st
      = .ok (.str "dry-run", st.counts, st.calls ++ [.searchAsset (normalizeAssetKey (dget ap "name"))]) := by
    unfold vulnsCreateSearchOrCreate findAssetCall
    simp [if_neg hnrm, hfind, truthy]
  have hres : vulnsCreateResolveAsset env companyId false entry st p0
      = .ok (dset p0 "assetId" (.str "dry-run"), c2, st.counts,
          st.calls ++ [.searchAsset (normalizeAssetKey (dget ap "name"))]) := by
    unfold vulnsCreateResolveAsset
    simp only [hblank, hcim, hmap, hap, hname, hea, hmiss1, hmiss2, hsoc, hw1, hw2,
      if_true, Bool.false_eq_true, if_false]
  have hself : dget (dset p0 "assetId" (.str "dry-run")) "assetId" = .str "dry-run" :=
    dget_dset_self p0 "assetId" _
  have hp1id : assetIdDigitNormalize (dset p0 "assetId" (.str "dry-run"))
      = dset p0 "assetId" (.str "dry-run") := by
    unfold assetIdDigitNormalize
    rw [hself]
    simp [pyIsDigit]
  have hp4id : dget (dset (descriptionDefault (assetIdDigitNormalize
      (dset p0 "assetId" (.str "dry-run")))) "type"
      (.str (if vt0 = "DAST" then "WEB" else vt0))) "assetId" = .str "dry-run" := by
    rw [dget_dset_ne _ "type" "assetId" _ (by decide), dget_descriptionDefault_assetId,
      hp1id, hself]
  refine ⟨?_, hp4id⟩
  unfold applyVulnsCreateEntry
  rw [hp0, hres]
  simp only [hself, hclass]
  by_cases hvt : (if vt0 = "DAST" then "WEB" else vt0) = "WEB"
  · obtain ⟨p5, hp5, hmiss⟩ := hweb hvt
    rw [hvt] at hp5
    refine ⟨dset p5 "companyId" (.int companyId), ?_⟩
    simp [hvt, hp5, hmiss, createVulnerability, isBlank]
  · by_cases hvt2 : (if vt0 = "DAST" then "WEB" else vt0) = "NETWORK"
    · obtain ⟨p5, hp5, hmiss⟩ := hnet hvt2
      rw [hvt2] at hp5
      refine ⟨dset p5 "companyId" (.int companyId), ?_⟩
      simp [hvt, hvt2, hp5, hmiss, createVulnerability, isBlank]
    · refine ⟨dset (dset (descriptionDefault (assetIdDigitNormalize
        (dset p0 "assetId" (.str "dry-run")))) "type"
        (.str (if vt0 = "DAST" then "WEB" else vt0))) "companyId" (.int companyId), ?_⟩
      simp [hvt, hvt2, createVulnerability, isBlank]

theorem claimC5_witness :
    isBlank (dget c5P0 "assetId") = true
    ∧ truthy (dget c5Entry.asset "create_if_missing") = true
    ∧ c5Env.findAssetByName "db.example.com" = none
    ∧ (∃ pFinal, applyVulnsCreateEntry c5Env 7 false c5Entry c5St
        = .ok (⟨c5C2, ⟨1, 0, 0, 0⟩, [.searchAsset "db.example.com"]⟩, some pFinal)) := by
  refine ⟨rfl, rfl, rfl, ?_⟩
  have h := (claimC5_dryrun_counts_created_no_asset_mutation c5Env 7 c5Entry c5St
    c5P0 [("name", .str "$\x7bfinding.host\x7d")] [("name", .str "db.example.com")]
    [] c5C2 c5C2 "NETWORK"
    rfl rfl rfl rfl rfl rfl rfl rfl rfl (by decide) rfl rfl rfl rfl
    (fun h => absurd h (by decide)) (fun _ => ⟨_, rfl, rfl⟩)).1
  exact h

/-- C1 (amended): with no explicit `type`/`vtype` in the rendered payload,
the subtype is inferred from the VALUE of the finding's `type` field
(dns/ssl/tcp/udp/network ⇒ network) or from a raw request starting with
";;" (⇒ network), and otherwise is the web default; the mere presence of
address/protocol (or file/line/snippet) payload fields plays no part:
adding any payload field other than `type`/`vtype` never changes the
classification, and no source-subtype inference exists. -/
theorem claimC1_amended_classifier (payload record : PyDict) (fkvs rkvs : PyDict)
    (htype : dget payload "type" = .null)
    (hvtype : dget payload "vtype" = .null)
    (hfind : pyOr (dget record "finding") (.dict []) = .dict fkvs)
    (hraw : pyOr (dget record "raw") (.dict []) = .dict rkvs) :
    classifyVulnType payload record = .ok (
      let ftype := if truthy (dget fkvs "type") then pyLower (pyStr (dget fkvs "type")) else ""
      if ftype = "dns" ∨ ftype = "ssl" ∨ ftype = "tcp" ∨ ftype = "udp" ∨ ftype = "network"
      then "NETWORK"
      else match dget rkvs "request" with
        | .str s => if pyStartsWith (pyLStrip s) ";;" then "NETWORK" else "WEB"
        | _ => "WEB")
    ∧ (∀ (k : String) (v : Val), k ≠ "type" → k ≠ "vtype" →
        classifyVulnType (dset payload k v) record = classifyVulnType payload record) := by
  have h0 : pyOr (dget payload "type") (pyOr (dget payload "vtype") (.str ""))
      = Val.str "" := by rw [htype, hvtype]; rfl
  constructor
  · simp only [classifyVulnType, h0, hfind, hraw]
    have hupper : pyUpper "" = "" := rfl
    simp only [hupper, ne_eq, not_true_eq_false, false_and, if_false]
    by_cases hf : (if truthy (dget fkvs "type") = true
        then pyLower (pyStr (dget fkvs "type")) else "") = "dns" ∨
        (if truthy (dget fkvs "type") = true then pyLower (pyStr (dget fkvs "type")) else "") = "ssl" ∨
        (if truthy (dget fkvs "type") = true then pyLower (pyStr (dget fkvs "type")) else "") = "tcp" ∨
        (if truthy (dget fkvs "type") = true then pyLower (pyStr (dget fkvs "type")) else "") = "udp" ∨
        (if truthy (dget fkvs "type") = true then pyLower (pyStr (dget fkvs "type")) else "") = "network"
    · simp [hf]
    · simp only [if_neg hf]
      cases dget rkvs "request" <;> simp [apply_ite]
  · intro k v hk1 hk2
    simp only [classifyVulnType, dget_dset_ne payload k "type" v hk1,
      dget_dset_ne payload k "vtype" v hk2]

theorem claimC1_witness :
    dget ([] : PyDict) "type" = Val.null
    ∧ classifyVulnType [] scenario1Record = .ok "WEB"
    ∧ classifyVulnType (dset [] "address" (.str "10.0.0.5")) scenario1Record
        = classifyVulnType [] scenario1Record := by
  refine ⟨rfl, ?_, ?_⟩
  · rw [(claimC1_amended_classifier [] scenario1Record _ _ rfl rfl rfl rfl).1]
    rfl
  · exact (claimC1_amended_classifier [] scenario1Record _ _ rfl rfl rfl rfl).2
      "address" (.str "10.0.0.5") (by decide) (by decide)

/-- C1 counterexample: the scenario-1 scan record dispatched through a
`vulns.create` action with a resolved assetId and no explicit type is
classified "WEB" (despite its address/protocol fields), and the full
apply-mode dispatch issues NO creation call at all: the WEB required-field
check skips the finding (missing url), so no network-subtype creation call
with severity/address/port is produced. -/
theorem claimC1_counterexample :
    parseScanJsonLines [some scenario1Raw] = [.dict scenario1Record]
    ∧ classifyVulnType
        (normalizeSeverity (renderActionPayload scenario1Entry.defaults scenario1Entry.map
          scenario1Record scenario1Context)) scenario1Record = .ok "WEB"
    ∧ ("WEB" : String) ≠ "NETWORK"
    ∧ applyVulnsCreateEntry scenario1Env 1 true scenario1Entry
        ⟨scenario1Context, ⟨0, 0, 0, 0⟩, []⟩
      = .ok (⟨scenario1Context, ⟨0, 1, 0, 0⟩, []⟩, none) := by
  refine ⟨rfl, rfl, by decide, rfl⟩

theorem claimC8_witness :
    dget [("url", Val.str "https://e.com/")] "port" = Val.null
    ∧ urlPortUpdateFull (pyOr (dget [("url", Val.str "https://e.com/")] "url")
        (dget [("url", Val.str "https://e.com/")] "matched-at")) Val.null = Val.null
    ∧ processNucleiEntry (.dict [("url", .str "https://e.com/")]) = .ok c8WitnessItem
    ∧ vget (vget c8WitnessItem "finding") "scheme" = .str "https"
    ∧ vget (vget c8WitnessItem "finding") "port" = .int 443 := by
  refine ⟨rfl, rfl, rfl, rfl, ?_⟩
  exact (claimC8_amended_nuclei_default_ports [("url", Val.str "https://e.com/")]
    c8WitnessItem rfl rfl rfl).1 rfl

/-- C8 counterexample: the object `\x7b"url": "https://example.com:8443/"\x7d`
has no `port` field and its scheme resolves to "https", yet the emitted
finding's port is 8443 (the URL's explicit port), not 443 — refuting the
claim as frozen. -/
theorem claimC8_counterexample :
    dmem [("url", Val.str "https://example.com:8443/")] "port" = false
    ∧ (match processNucleiEntry (.dict [("url", .str "https://example.com:8443/")]) with
       | .ok f => vget (vget f "finding") "scheme"
       | .error _ => .null) = .str "https"
    ∧ (match processNucleiEntry (.dict [("url", .str "https://example.com:8443/")]) with
       | .ok f => vget (vget f "finding") "port"
       | .error _ => .null) = .int 8443
    ∧ Val.int 8443 ≠ Val.int 443 := by
  refine ⟨rfl, rfl, rfl, ?_⟩
  intro h
  injection h with h'
  exact absurd h' (by decide)

/-- C2 (amended): the two JSON-lines parsers silently skip lines that fail
JSON decoding; scan-json-lines additionally skips decoded non-object
entries and emits one finding per decoded object entry, never raising; but
nuclei-json-lines raises on a decoded entry that is not an object (its body
calls `.get` on the value), aborting the whole batch, and nmap-xml raises
when the document as a whole is not well-formed XML. -/
theorem claimC2_amended_parser_skip_policy :
    (∀ rest : List DecodedLine, parseScanJsonLines (none :: rest) = parseScanJsonLines rest)
    ∧ (∀ (raw : Val) (rest : List DecodedLine), (∀ kvs, raw ≠ .dict kvs) →
        parseScanJsonLines (some raw :: rest) = parseScanJsonLines rest)
    ∧ (∀ (kvs : PyDict) (rest : List DecodedLine), ∃ item,
        parseScanJsonLines (some (.dict kvs) :: rest) = item :: parseScanJsonLines rest)
    ∧ (∀ rest : List DecodedLine, parseNucleiJsonLines (none :: rest) = parseNucleiJsonLines rest)
    ∧ (∀ (raw : Val) (rest : List DecodedLine), (∀ kvs, raw ≠ .dict kvs) →
        parseNucleiJsonLines (some raw :: rest) = .error ())
    ∧ parseNmapXmlText none = .error () := by
  refine ⟨?_, ?_, ?_, ?_, ?_, rfl⟩
  · intro rest
    simp [parseScanJsonLines, List.filterMap_cons]
  · intro raw rest h
    cases raw with
    | dict kvs => exact absurd rfl (h kvs)
    | null => simp [parseScanJsonLines, List.filterMap_cons, processScanEntry]
    | bool b => simp [parseScanJsonLines, List.filterMap_cons, processScanEntry]
    | int n => simp [parseScanJsonLines, List.filterMap_cons, processScanEntry]
    | str s => simp [parseScanJsonLines, List.filterMap_cons, processScanEntry]
    | list xs => simp [parseScanJsonLines, List.filterMap_cons, processScanEntry]
  · intro kvs rest
    cases h : dget kvs "finding" with
    | dict f =>
        refine ⟨Val.dict [("finding", .dict (backfillScanFinding f)),
          ("raw", .dict (dset kvs "finding" (.dict (backfillScanFinding f))))], ?_⟩
        simp [parseScanJsonLines, List.filterMap_cons, processScanEntry, h]
    | null =>
        refine ⟨Val.dict [("finding", .dict (backfillScanFinding kvs)), ("raw", .dict kvs)], ?_⟩
        simp [parseScanJsonLines, List.filterMap_cons, processScanEntry, h]
    | bool b =>
        refine ⟨Val.dict [("finding", .dict (backfillScanFinding kvs)), ("raw", .dict kvs)], ?_⟩
        simp [parseScanJsonLines, List.filterMap_cons, processScanEntry, h]
    | int n =>
        refine ⟨Val.dict [("finding", .dict (backfillScanFinding kvs)), ("raw", .dict kvs)], ?_⟩
        simp [parseScanJsonLines, List.filterMap_cons, processScanEntry, h]
    | str s =>
        refine ⟨Val.dict [("finding", .dict (backfillScanFinding kvs)), ("raw", .dict kvs)], ?_⟩
        simp [parseScanJsonLines, List.filterMap_cons, processScanEntry, h]
    | list xs =>
        refine ⟨Val.dict [("finding", .dict (backfillScanFinding kvs)), ("raw", .dict kvs)], ?_⟩
        simp [parseScanJsonLines, List.filterMap_cons, processScanEntry, h]
  · intro rest
    rfl
  · intro raw rest h
    cases raw with
    | dict kvs => exact absurd rfl (h kvs)
    | null => rfl
    | bool b => rfl
    | int n => rfl
    | str s => rfl
    | list xs => rfl

theorem claimC2_amended_witness :
    (∀ kvs : PyDict, Val.int 7 ≠ Val.dict kvs)
    ∧ parseScanJsonLines [none, some (.int 7)] = []
    ∧ parseNucleiJsonLines [some (.int 7)] = Except.error () := by
  refine ⟨fun kvs => by simp, ?_, ?_⟩
  · rw [claimC2_amended_parser_skip_policy.1,
      claimC2_amended_parser_skip_policy.2.1 (.int 7) [] (fun kvs => by simp)]
    rfl
  · exact claimC2_amended_parser_skip_policy.2.2.2.2.1 (.int 7) [] (fun kvs => by simp)

/-- C2 counterexample: the claim as stated fails for nuclei-json-lines — a
single line that IS valid JSON but not an object (here the line `5`)
aborts the whole parse with an exception instead of being skipped, even
though another entry in the batch is perfectly parseable. -/
theorem claimC2_counterexample :
    parseNucleiJsonLines
        [some (.dict [("url", .str "https://e.com/")]), some (.int 5)]
      = .error () := rfl

theorem findClose_append_close (l : List Char) (h : ∀ c ∈ l, c ≠ closeBraceChar) :
    findClose (l ++ [closeBraceChar]) = some (l, []) := by
  induction l with
  | nil => simp [findClose]
  | cons c cs ih =>
      have hc : c ≠ closeBraceChar := h c (by simp)
      simp only [List.cons_append, findClose, if_neg hc, List.append_eq]
      rw [ih (fun x hx => h x (by simp [hx]))]

/-- Unfolding the scanner on one whole placeholder: with a nonempty,
brace-free body the match fires and consumes the whole placeholder. -/
theorem renderCharsFuel_placeholder (record context : PyDict) (fuel : Nat) (l : List Char)
    (hl : l.isEmpty = false) (hbr : ∀ c ∈ l, c ≠ closeBraceChar) :
    renderCharsFuel record context (fuel + 1)
        (dollarChar :: openBraceChar :: (l ++ [closeBraceChar]))
      = (renderExpr record context (String.mk l)).data := by
  have hclose := findClose_append_close l hbr
  simp only [renderCharsFuel, hclose, hl, and_self, if_true, if_pos, Bool.false_eq_true,
    if_false, List.append_nil]

/-- C7: rendering the placeholder string for a path expression that does not
use the `assets.by_name:` directive substitutes the value resolved against
the finding record first, falls back to the context only when the record
walk yields `None`, and renders the empty string when neither resolves; the
renderer is a total function, so no input raises. -/
theorem claimC7_render_record_then_context (expr : String) (record context : PyDict)
    (hne : expr ≠ "")
    (hbr : ∀ c ∈ expr.data, c ≠ closeBraceChar)
    (hpre : pyStartsWith (pyStrip expr) "assets.by_name:" = false) :
    renderString ("$\x7b" ++ expr ++ "\x7d") record context =
      (let parts := pySplitOn (pyStrip expr) "."
       let vRec := walkPath (.dict record) parts
       let vCtx := walkPath (.dict context) parts
       if isNull vRec then (if isNull vCtx then "" else pyStr vCtx) else pyStr vRec) := by
  obtain ⟨l⟩ := expr
  have hl : l ≠ [] := fun h0 => hne (by rw [h0])
  have hdata : ("$\x7b" ++ String.mk l ++ "\x7d").data
      = dollarChar :: openBraceChar :: (l ++ [closeBraceChar]) := by
    show ([dollarChar, openBraceChar] ++ l) ++ [closeBraceChar]
      = dollarChar :: openBraceChar :: (l ++ [closeBraceChar])
    simp
  have hIsEmpty : l.isEmpty = false := by
    cases l with
    | nil => exact absurd rfl hl
    | cons a as => rfl
  unfold renderString
  rw [hdata]
  have hfuel : (dollarChar :: openBraceChar :: (l ++ [closeBraceChar])).length + 1
      = (l.length + 3) + 1 := by simp
  rw [hfuel, renderCharsFuel_placeholder record context (l.length + 3) l hIsEmpty hbr]
  have hmk : ∀ s : String, String.mk s.data = s := fun s => rfl
  rw [hmk]
  show renderExpr record context (String.mk l) = _
  unfold renderExpr
  simp only [hpre, Bool.false_eq_true, if_false]
  unfold getPathValue
  by_cases h1 : isNull (walkPath (.dict record) (pySplitOn (pyStrip (String.mk l)) ".")) = true
  · simp [h1]
  · simp [h1]

theorem claimC7_witness :
    ("finding.port" : String) ≠ ""
    ∧ (∀ c ∈ ("finding.port" : String).data, c ≠ closeBraceChar)
    ∧ pyStartsWith (pyStrip "finding.port") "assets.by_name:" = false
    ∧ renderString ("$\x7b" ++ "finding.port" ++ "\x7d")
        [("finding", .dict [("port", .int 22)])] [("x", .str "y")] = "22" := by
  refine ⟨by decide, by decide, by decide, ?_⟩
  rw [claimC7_render_record_then_context "finding.port"
    [("finding", .dict [("port", .int 22)])] [("x", .str "y")]
    (by decide) (by decide) (by decide)]
  rfl

theorem claimC6_witness :
    isCommandApproved (fun s => s) [] "nmap -sV localhost" = false
    ∧ (approvalGate (fun s => s) [] "nmap -sV localhost" false false 0 = .skipStep []
       ∧ gateAndRun (fun s => s) [] "nmap -sV localhost" false false 0 = ([], [])) :=
  ⟨rfl, claimC6_declined_command_not_run (fun s => s) [] "nmap -sV localhost" 0 rfl⟩

end Conviso
